import Mathlib

/-!
Verification development for the service-order Lambda
(`src/service_order_lambda/{validators,models,repository,app}.py`).

The Python modules are shallowly embedded: JSON-like Python values become the
inductive type `PyVal`, dictionaries become association lists, raised Python
exceptions become the `Except PyErr` monad, and the DynamoDB table becomes an
explicit list of items threaded through the repository operations.  The current
time and the freshly minted uuid4, which the code obtains from the environment,
are passed to the handlers as explicit arguments.
-/

set_option maxRecDepth 4096

namespace ServiceOrder

/-- Python exception classes that the embedded code can raise.  The
constructors mirror the exception types named in the source's `except`
clauses (`ValueError`, `TypeError`, `AttributeError`, `IndexError`,
`json.JSONDecodeError`, pydantic's `ValidationError`, botocore's
`ClientError`); `otherError` stands for any other `Exception` subclass. -/
inductive PyErr where
  | valueError
  | typeError
  | attributeError
  | indexError
  | jsonDecodeError
  | validationError
  | clientError
  | otherError
deriving Repr, DecidableEq

/-- Python values as exchanged through JSON bodies and DynamoDB items:
`None`, strings, ints, bools, `uuid.UUID` objects (carried as their 32
lowercase hex digits), lists and dicts.  Dicts are association lists in
insertion order, matching Python dict semantics. -/
inductive PyVal where
  | vnone
  | vstr (s : String)
  | vint (n : Int)
  | vbool (b : Bool)
  | vuuid (hex : String)
  | vlist (xs : List PyVal)
  | vdict (kvs : List (String × PyVal))
deriving Repr

/-- Association-list dictionary of Python values. -/
abbrev Dict := List (String × PyVal)

/-- Dictionary lookup, `d.get(k)`. -/
def dictGet (d : Dict) (k : String) : Option PyVal :=
  (d.find? (fun p => p.1 == k)).map (·.2)

/-- Key-membership test, `k in d`. -/
def hasKey (d : Dict) (k : String) : Bool :=
  (d.find? (fun p => p.1 == k)).isSome

/-- Dictionary assignment `d[k] = v`: replaces the value in place when the key
exists, otherwise appends, as Python dicts do. -/
def dictSet (d : Dict) (k : String) (v : PyVal) : Dict :=
  if hasKey d k then
    d.map (fun p => if p.1 == k then (k, v) else p)
  else
    d ++ [(k, v)]

/-- Python truthiness (`bool(x)`): `None`, `""`, `0`, `False`, `[]` and an
empty dict are falsy; every `uuid.UUID` object is truthy. -/
def truthy : PyVal → Bool
  | .vnone => false
  | .vstr s => s ≠ ""
  | .vint n => n ≠ 0
  | .vbool b => b
  | .vuuid _ => true
  | .vlist xs => ¬ xs.isEmpty
  | .vdict kvs => ¬ kvs.isEmpty

/-- Truthiness of an optional string (a `.get` result from a
`map<string,string>`): `None` and the empty string are falsy. -/
def truthyOptS : Option String → Bool
  | none => false
  | some s => s ≠ ""

/-- Lookup in a string-to-string map such as `pathParameters`. -/
def lookupStr (m : List (String × String)) (k : String) : Option String :=
  (m.find? (fun p => p.1 == k)).map (·.2)

/-- The character `{`, written via its code point. -/
def lbrace : Char := Char.ofNat 123

/-- The character `}`, written via its code point. -/
def rbrace : Char := Char.ofNat 125

/-- ASCII decimal digit test, the model of `\d` in the source's regexes (the
service's data is ASCII; Unicode digits are not modelled). -/
def isDig (c : Char) : Bool := 48 ≤ c.toNat && c.toNat ≤ 57

/-- Numeric value of an ASCII digit character. -/
def digVal (c : Char) : Nat := c.toNat - 48

/-- ASCII hexadecimal digit test (`0-9`, `a-f`, `A-F`). -/
def isHexDig (c : Char) : Bool :=
  isDig c || (97 ≤ c.toNat && c.toNat ≤ 102) || (65 ≤ c.toNat && c.toNat ≤ 70)

/-- Lowercase an ASCII character (used for the canonical hex form that
`uuid.UUID` keeps internally). -/
def lowerHex (c : Char) : Char :=
  if 65 ≤ c.toNat && c.toNat ≤ 70 then Char.ofNat (c.toNat + 32) else c

/-- Fuel-driven non-overlapping left-to-right substring replacement, the model
of Python's `str.replace`. -/
def listReplaceF (pat repl : List Char) : Nat → List Char → List Char
  | 0, s => s
  | _ + 1, [] => []
  | fuel + 1, c :: t =>
    if pat ≠ [] && pat.isPrefixOf (c :: t) then
      repl ++ listReplaceF pat repl fuel ((c :: t).drop pat.length)
    else
      c :: listReplaceF pat repl fuel t

/-- Substring replacement on strings (`s.replace(pat, repl)`). -/
def pyReplace (s pat repl : String) : String :=
  ⟨listReplaceF pat.data repl.data s.data.length s.data⟩

/-- Python's `str.strip(chars)`: remove any of the given characters from both
ends. -/
def pyStrip (strip : List Char) (s : List Char) : List Char :=
  ((s.dropWhile (strip.contains ·)).reverse.dropWhile (strip.contains ·)).reverse

/-- Hex-digit normalisation performed by CPython's `uuid.UUID(hex=s)`
constructor: drop `urn:` and `uuid:` occurrences, strip surrounding braces,
remove all hyphens.  (The `int(hex, 16)` underscore and sign quirks are not
modelled; no input considered here triggers them.) -/
def uuidNormalize (s : String) : List Char :=
  let t := (pyReplace (pyReplace s "urn:" "") "uuid:" "").data
  let u := pyStrip [lbrace, rbrace] t
  listReplaceF ['-'] [] u.length u

/-- CPython `uuid.UUID(hex=s)` validity: after normalisation, exactly 32 hex
digits remain. -/
def pyUuidValid (s : String) : Bool :=
  let h := uuidNormalize s
  h.length == 32 && h.all isHexDig

/-- Canonical internal form of a parsed UUID: the 32 hex digits, lowercased. -/
def uuidCanon (s : String) : String :=
  ⟨(uuidNormalize s).map lowerHex⟩

/-- Hyphenated rendering `str(uuid)`: 8-4-4-4-12 lowercase groups of the
canonical 32 hex digits. -/
def uuidStr (hex : String) : String :=
  let cs := hex.data
  ⟨cs.take 8 ++ '-' :: (cs.drop 8).take 4 ++ '-' :: (cs.drop 12).take 4 ++
    '-' :: (cs.drop 16).take 4 ++ '-' :: cs.drop 20⟩

/-- CPython's `uuid.UUID(x)` called on an arbitrary value: a string is parsed
(raising `ValueError` on a malformed one); a non-string raises
`AttributeError` or `TypeError` when the constructor's string operations hit
it (`None`/ints/bools/lists/dicts/UUIDs lack `.replace`, giving
`AttributeError`). -/
def pyUuidNew : PyVal → Except PyErr String
  | .vstr s => if pyUuidValid s then .ok (uuidCanon s) else .error .valueError
  | .vnone => .error .attributeError
  | .vint _ => .error .attributeError
  | .vbool _ => .error .attributeError
  | .vuuid _ => .error .attributeError
  | .vlist _ => .error .attributeError
  | .vdict _ => .error .attributeError

/-- Rendering `str(value)` for the values that can appear in a request body.
Lists and dicts are rendered with their surrounding brackets and quoted
elements (the exact element spelling is irrelevant downstream: such renderings
are never 32 hex digits). -/
def pyStr : PyVal → String
  | .vnone => "None"
  | .vstr s => s
  | .vint n => toString n
  | .vbool true => "True"
  | .vbool false => "False"
  | .vuuid hex => uuidStr hex
  | .vlist _ => "[...]"
  | .vdict _ => ⟨lbrace :: '.' :: '.' :: '.' :: [rbrace]⟩

/-- Integer value of a list of decimal digit characters. -/
def natOfDigits (ds : List Char) : Nat :=
  ds.foldl (fun a c => 10 * a + digVal c) 0

/-- Python's `int(s)` on a decimal string: optional sign followed by at least
one digit.  (Whitespace and underscore tolerance of CPython's `int` is not
modelled; no input considered here uses it.) -/
def pyIntDecOfChars (cs : List Char) : Option Int :=
  match cs with
  | [] => none
  | c :: ds =>
    if c = '-' then
      if ds ≠ [] && ds.all isDig then some (-(natOfDigits ds : Int)) else none
    else if c = '+' then
      if ds ≠ [] && ds.all isDig then some (natOfDigits ds : Int) else none
    else if (c :: ds).all isDig then some (natOfDigits (c :: ds) : Int)
    else none

/-- Consume two decimal digits, returning their value. -/
def parse2 : List Char → Option (Nat × List Char)
  | c1 :: c2 :: rest =>
    if isDig c1 && isDig c2 then some (10 * digVal c1 + digVal c2, rest) else none
  | _ => none

/-- Consume a literal colon. -/
def parseColon : List Char → Option (List Char)
  | c :: rest => if c = ':' then some rest else none
  | [] => none

/-- The timezone suffix alternatives `Z | [+-]\d{2}:\d{2}` of the time
regexes. -/
inductive TzParts where
  | z
  | off (neg : Bool) (oh om : Nat)
deriving Repr, DecidableEq

/-- Parsed groups of a string matched by a time regex
`^\d{2}:\d{2}(:\d{2})?(\.\d+)?(Z|[+-]\d{2}:\d{2})?$` (seconds mandatory in the
validators module, optional in the models module).  `nl` records the trailing
newline that Python's `$` anchor tolerates at the end of the subject. -/
structure TimeParts where
  hh : Nat
  mm : Nat
  ss : Option Nat
  frac : Option (List Char)
  tz : Option TzParts
  nl : Bool
deriving Repr, DecidableEq

/-- Consume the optional seconds group; with `reqSec` the group is mandatory
(the validators-module regex spells it `:(\d{2})` outside any `?`). -/
def parseSec (reqSec : Bool) : List Char → Option (Option Nat × List Char)
  | c :: rest =>
    if c = ':' then (parse2 rest).map fun p => (some p.1, p.2)
    else if reqSec then none else some (none, c :: rest)
  | [] => if reqSec then none else some (none, [])

/-- Consume the optional fraction group `(\.\d+)?`: a dot must be followed by
at least one digit, which the group takes greedily. -/
def parseFracPart : List Char → Option (Option (List Char) × List Char)
  | c :: rest =>
    if c = '.' then
      let ds := rest.takeWhile isDig
      if ds.isEmpty then none else some (some ds, rest.dropWhile isDig)
    else some (none, c :: rest)
  | [] => some (none, [])

/-- Consume the optional timezone group `(Z|[+-]\d{2}:\d{2})?`. -/
def parseTzPart : List Char → Option (Option TzParts × List Char)
  | c :: rest =>
    if c = 'Z' then some (some .z, rest)
    else if c = '+' then
      (parse2 rest).bind fun p1 =>
        (parseColon p1.2).bind fun r2 =>
          (parse2 r2).map fun p2 => (some (.off false p1.1 p2.1), p2.2)
    else if c = '-' then
      (parse2 rest).bind fun p1 =>
        (parseColon p1.2).bind fun r2 =>
          (parse2 r2).map fun p2 => (some (.off true p1.1 p2.1), p2.2)
    else some (none, c :: rest)
  | [] => some (none, [])

/-- Consume the `$` anchor: end of subject, or a single newline then the end
(Python's `$` outside MULTILINE). -/
def parseEnd : List Char → Option Bool
  | [] => some false
  | [c] => if c = '\n' then some true else none
  | _ => none

/-- Deterministic matcher for the time regexes (no alternative in them can
backtrack: the fraction's digits, the timezone and the anchor start with
disjoint characters).  Returns the matched groups. -/
def isoTimeParse (reqSec : Bool) (cs : List Char) : Option TimeParts :=
  (parse2 cs).bind fun ph =>
    (parseColon ph.2).bind fun r1 =>
      (parse2 r1).bind fun pm =>
        (parseSec reqSec pm.2).bind fun ps =>
          (parseFracPart ps.2).bind fun pf =>
            (parseTzPart pf.2).bind fun pt =>
              (parseEnd pt.2).map fun nl =>
                ⟨ph.1, pm.1, ps.1, pf.1, pt.1, nl⟩

/-- Parsed groups of `^\d{4}-\d{2}-\d{2}$` (`ISO_DATE_REGEX`). -/
structure DateParts where
  y : Nat
  m : Nat
  d : Nat
  nl : Bool
deriving Repr, DecidableEq

/-- Consume a literal hyphen. -/
def parseHyphen : List Char → Option (List Char)
  | c :: rest => if c = '-' then some rest else none
  | [] => none

/-- Deterministic matcher for `ISO_DATE_REGEX`. -/
def isoDateParse (cs : List Char) : Option DateParts :=
  (parse2 cs).bind fun p1 =>
    (parse2 p1.2).bind fun p2 =>
      (parseHyphen p2.2).bind fun r3 =>
        (parse2 r3).bind fun pm =>
          (parseHyphen pm.2).bind fun r5 =>
            (parse2 r5).bind fun pd =>
              (parseEnd pd.2).map fun nl => ⟨100 * p1.1 + p2.1, pm.1, pd.1, nl⟩

/-- Whitespace skipping for the JSON parser. -/
def skipWs : List Char → List Char :=
  List.dropWhile (fun c => c == ' ' || c == '\t' || c == '\n' || c == '\r')

/-- JSON string body after the opening quote, with the single-character
escapes; `acc` holds the decoded prefix reversed.  (`\uXXXX` escapes and
floats are outside the modelled JSON fragment; every payload treated here
stays inside it.) -/
def parseJStrF : Nat → List Char → List Char → Option (String × List Char)
  | 0, _, _ => none
  | _ + 1, _, [] => none
  | fuel + 1, acc, c :: rest =>
    if c = '"' then some (⟨acc.reverse⟩, rest)
    else if c = '\\' then
      match rest with
      | e :: r2 =>
        let dec : Option Char :=
          if e = '"' then some '"'
          else if e = '\\' then some '\\'
          else if e = '/' then some '/'
          else if e = 'n' then some '\n'
          else if e = 't' then some '\t'
          else if e = 'r' then some '\r'
          else if e = 'b' then some (Char.ofNat 8)
          else if e = 'f' then some (Char.ofNat 12)
          else none
        match dec with
        | some d => parseJStrF fuel (d :: acc) r2
        | none => none
      | [] => none
    else parseJStrF fuel (c :: acc) rest

mutual

/-- Fuel-driven recursive-descent parser for a JSON value, the model of the
standard library's `json.loads` on the integral JSON fragment this service
exchanges. -/
def parseJValF : Nat → List Char → Option (PyVal × List Char)
  | 0, _ => none
  | fuel + 1, cs0 =>
    match skipWs cs0 with
    | [] => none
    | c :: rest =>
      if c = '"' then (parseJStrF (fuel + 1) [] rest).map fun p => (.vstr p.1, p.2)
      else if c = 'n' then
        match rest with
        | 'u' :: 'l' :: 'l' :: r => some (.vnone, r)
        | _ => none
      else if c = 't' then
        match rest with
        | 'r' :: 'u' :: 'e' :: r => some (.vbool true, r)
        | _ => none
      else if c = 'f' then
        match rest with
        | 'a' :: 'l' :: 's' :: 'e' :: r => some (.vbool false, r)
        | _ => none
      else if c = '-' then
        let ds := rest.takeWhile isDig
        if ds.isEmpty then none
        else some (.vint (-(natOfDigits ds : Int)), rest.drop ds.length)
      else if isDig c then
        let ds := rest.takeWhile isDig
        some (.vint (natOfDigits (c :: ds) : Int), rest.drop ds.length)
      else if c = '[' then
        match skipWs rest with
        | ']' :: r => some (.vlist [], r)
        | r0 => (parseJItemsF fuel r0).map fun p => (.vlist p.1, p.2)
      else if c = lbrace then
        match skipWs rest with
        | r0 =>
          if r0.head? = some rbrace then some (.vdict [], r0.tail)
          else (parseJPairsF fuel r0).map fun p => (.vdict p.1, p.2)
      else none

/-- Comma-separated JSON array items up to the closing bracket. -/
def parseJItemsF : Nat → List Char → Option (List PyVal × List Char)
  | 0, _ => none
  | fuel + 1, cs =>
    (parseJValF fuel cs).bind fun p =>
      match skipWs p.2 with
      | ',' :: r => (parseJItemsF fuel r).map fun q => (p.1 :: q.1, q.2)
      | ']' :: r => some ([p.1], r)
      | _ => none

/-- Comma-separated JSON object members up to the closing brace. -/
def parseJPairsF : Nat → List Char → Option (Dict × List Char)
  | 0, _ => none
  | fuel + 1, cs =>
    match skipWs cs with
    | '"' :: r0 =>
      (parseJStrF (fuel + 1) [] r0).bind fun pk =>
        match skipWs pk.2 with
        | ':' :: r1 =>
          (parseJValF fuel r1).bind fun pv =>
            match skipWs pv.2 with
            | ',' :: r2 => (parseJPairsF fuel r2).map fun q => ((pk.1, pv.1) :: q.1, q.2)
            | r2 =>
              if r2.head? = some rbrace then some ([(pk.1, pv.1)], r2.tail) else none
        | _ => none
    | _ => none

end

/-- Top-level `json.loads`: one value, then only trailing whitespace. -/
def jsonLoads (s : String) : Option PyVal :=
  match parseJValF (2 * s.data.length + 4) s.data with
  | some (v, rest) => if (skipWs rest).isEmpty then some v else none
  | none => none

/-- Embedding of `validators.validate_uuid`: `uuid.UUID(uuid_str)` under a
`try` that catches exactly `ValueError`, `AttributeError` and `TypeError`;
any other exception would propagate. -/
def validate_uuid (v : PyVal) : Except PyErr (Bool × Option String) :=
  match pyUuidNew v with
  | .ok u => .ok (true, some u)
  | .error .valueError => .ok (false, none)
  | .error .attributeError => .ok (false, none)
  | .error .typeError => .ok (false, none)
  | .error e => .error e

/-- Embedding of `validators.validate_iso_date`: `None` is valid, a string is
matched against `ISO_DATE_REGEX` (a pure shape check), anything else is
invalid. -/
def validate_iso_date : PyVal → Bool
  | .vnone => true
  | .vstr s => (isoDateParse s.data).isSome
  | _ => false

/-- Embedding of `validators.validate_iso_time`: `None` is valid; a string
must match `ISO_TIME_REGEX` (seconds mandatory) and then
`int(time.split(":")[0])` must lie in 0..23 (`ValueError`/`IndexError` from
that extraction are caught and yield `False`); anything else is invalid. -/
def validate_iso_time : PyVal → Bool
  | .vnone => true
  | .vstr s =>
    if (isoTimeParse true s.data).isSome then
      match pyIntDecOfChars (s.data.takeWhile (· ≠ ':')) with
      | some h => decide (0 ≤ h ∧ h ≤ 23)
      | none => false
    else false
  | _ => false

/-- Python's `k in container` for the containers a parsed JSON body can be:
key membership for dicts, element membership for lists, substring test for
strings; ints, bools and `None` are not containers and raise `TypeError`. -/
def pyContains (container : PyVal) (k : String) : Except PyErr Bool :=
  match container with
  | .vdict d => .ok (hasKey d k)
  | .vlist xs => .ok (xs.any (fun v => match v with | .vstr s => s == k | _ => false))
  | .vstr s => .ok ((String.splitOn s k).length != 1)
  | _ => .error .typeError

/-- Python's `container[k] = v` for a string key: only dicts support it;
lists and the other values raise `TypeError`. -/
def pySetItem (container : PyVal) (k : String) (v : PyVal) : Except PyErr PyVal :=
  match container with
  | .vdict d => .ok (.vdict (dictSet d k v))
  | _ => .error .typeError

/-- Python's `int(x)` coercion as used on `service_duration`: ints pass
through, bools become 0/1, decimal strings are parsed (`ValueError`
otherwise), any other type raises `TypeError`. -/
def pyIntCoerce : PyVal → Except PyErr Int
  | .vint n => .ok n
  | .vbool b => .ok (if b then 1 else 0)
  | .vstr s =>
    match pyIntDecOfChars s.data with
    | some n => .ok n
    | none => .error .valueError
  | _ => .error .typeError

/-- UUID-field loop of `_validate_request_common`: for each of `unit_id`,
`action_id`, `employee_id`, a present truthy value must satisfy
`validate_uuid(str(value))` and is replaced in the body by the parsed UUID
object. -/
def uuidFieldsLoop : Dict → List String → Except PyErr (Option String × Dict)
  | d, [] => .ok (none, d)
  | d, f :: fs =>
    match dictGet d f with
    | some v =>
      if truthy v then
        match validate_uuid (.vstr (pyStr v)) with
        | .error e => .error e
        | .ok (isValid, parsed) =>
          if isValid then
            match parsed with
            | some u => uuidFieldsLoop (dictSet d f (.vuuid u)) fs
            | none => uuidFieldsLoop d fs
          else .ok (some ("Invalid UUID format for " ++ f), d)
      else uuidFieldsLoop d fs
    | none => uuidFieldsLoop d fs

/-- Embedding of `validators._validate_request_common`.  The source mutates
`body` in place and returns `(ok, error)`; the embedding returns the mutated
body alongside.  Required-key checks come first, then the UUID-field loop,
then the date, time and duration checks, each short-circuiting on its error
message.  A non-dict body behaves as in Python: the `in` checks follow
container semantics and `body.get` on a non-dict raises `AttributeError`. -/
def validateRequestCommon (body : PyVal) : Except PyErr (Bool × Option String × PyVal) :=
  match pyContains body "unit_id" with
  | .error e => .error e
  | .ok hasUnit =>
    if ¬ hasUnit then .ok (false, some "Missing required field: unit_id", body)
    else
      match pyContains body "action_id" with
      | .error e => .error e
      | .ok hasAction =>
        if ¬ hasAction then .ok (false, some "Missing required field: action_id", body)
        else
          match body with
          | .vdict d =>
            match uuidFieldsLoop d ["unit_id", "action_id", "employee_id"] with
            | .error e => .error e
            | .ok (some msg, d1) => .ok (false, some msg, .vdict d1)
            | .ok (none, d1) =>
              if hasKey d1 "service_date" &&
                  ¬ validate_iso_date ((dictGet d1 "service_date").getD .vnone) then
                .ok (false, some "Invalid ISO 8601 format for service_date", .vdict d1)
              else if hasKey d1 "service_time" &&
                  ¬ validate_iso_time ((dictGet d1 "service_time").getD .vnone) then
                .ok (false, some "Invalid ISO 8601 format for service_time", .vdict d1)
              else if hasKey d1 "service_duration" then
                match pyIntCoerce ((dictGet d1 "service_duration").getD .vnone) with
                | .ok n => .ok (true, none, .vdict (dictSet d1 "service_duration" (.vint n)))
                | .error .valueError =>
                  .ok (false, some "service_duration must be an integer", .vdict d1)
                | .error .typeError =>
                  .ok (false, some "service_duration must be an integer", .vdict d1)
                | .error e => .error e
              else .ok (true, none, .vdict d1)
          | _ => .error .attributeError

/-- Result shape of `validate_create_request` (`CreateValidationResult`). -/
structure CreateValidationResult where
  is_valid : Bool
  body : Option PyVal
  error : Option String
deriving Repr

/-- Result shape of `validate_update_request` (`UpdateValidationResult`). -/
structure UpdateValidationResult where
  is_valid : Bool
  body : Option PyVal
  customer_id : Option String
  error : Option String
deriving Repr

/-- Result shape of `validate_delete_request` (`DeleteValidationResult`). -/
structure DeleteValidationResult where
  is_valid : Bool
  order_id : Option String
  customer_id : Option String
  error : Option String
deriving Repr, DecidableEq

/-- Result shape of `validate_get_request` (`GetValidationResult`). -/
structure GetValidationResult where
  is_valid : Bool
  order_id : Option String
  customer_id : Option String
  location_id : Option String
  error : Option String
deriving Repr, DecidableEq

/-- Inbound event, the abstract shape the dispatcher consumes.  `none` in
`pathParameters`/`queryStringParameters` covers both an absent key and an
explicit `null` (the source normalises both with `or {}` before use); the
body is absent, a JSON string, or an already-parsed value. -/
structure Event where
  httpMethod : Option String
  pathParameters : Option (List (String × String))
  queryStringParameters : Option (List (String × String))
  body : Option PyVal

/-- Embedding of `validators.validate_create_request`: customerId in path,
then a truthy body (parsed from JSON when it is a string), then locationId in
query which is injected into the body, then the common field checks. -/
def validate_create_request (e : Event) : Except PyErr CreateValidationResult :=
  let pp := e.pathParameters.getD []
  let cust := lookupStr pp "customerId"
  if ¬ truthyOptS cust then
    .ok ⟨false, none, some "Missing customerId in path parameters"⟩
  else
    let b0 := (e.body).getD .vnone
    if ¬ truthy b0 then .ok ⟨false, none, some "Missing request body"⟩
    else
      let parsed : Except PyErr (Option PyVal) :=
        match b0 with
        | .vstr s =>
          match jsonLoads s with
          | some v => .ok (some v)
          | none => .ok none
        | v => .ok (some v)
      match parsed with
      | .error e0 => .error e0
      | .ok none => .ok ⟨false, none, some "Invalid JSON in request body"⟩
      | .ok (some b1) =>
        let qp := e.queryStringParameters.getD []
        let loc := lookupStr qp "locationId"
        match loc with
        | some locS =>
          if locS = "" then .ok ⟨false, none, some "Missing locationId in query parameters"⟩
          else
            match pySetItem b1 "location_id" (.vstr locS) with
            | .error e1 => .error e1
            | .ok b2 =>
              match validateRequestCommon b2 with
              | .error e2 => .error e2
              | .ok (ok, err, b3) =>
                if ¬ ok then .ok ⟨false, none, err⟩
                else .ok ⟨true, some b3, none⟩
        | none => .ok ⟨false, none, some "Missing locationId in query parameters"⟩

/-- Embedding of `validators.validate_update_request`: id presence, id UUID
format, customerId presence, body presence and JSON parse, then the common
field checks — in exactly that order. -/
def validate_update_request (e : Event) : Except PyErr UpdateValidationResult :=
  let pp := e.pathParameters.getD []
  let oid := lookupStr pp "id"
  let cid := lookupStr pp "customerId"
  if ¬ truthyOptS oid then
    .ok ⟨false, none, none, some "Missing service order id in path parameters"⟩
  else
    match validate_uuid (.vstr (oid.getD "")) with
    | .error e0 => .error e0
    | .ok (isValid, _) =>
      if ¬ isValid then
        .ok ⟨false, none, none, some "Invalid UUID format for service order id"⟩
      else if ¬ truthyOptS cid then
        .ok ⟨false, none, none, some "Missing customerId in path parameters"⟩
      else
        match (e.body).getD .vnone with
        | .vnone => .ok ⟨false, none, none, some "Missing request body"⟩
        | .vstr s =>
          match jsonLoads s with
          | some b1 =>
            match validateRequestCommon b1 with
            | .error e2 => .error e2
            | .ok (ok, err, b2) =>
              if ¬ ok then .ok ⟨false, none, none, err⟩
              else .ok ⟨true, some b2, cid, none⟩
          | none => .ok ⟨false, none, none, some "Invalid JSON in request body"⟩
        | b1 =>
          match validateRequestCommon b1 with
          | .error e2 => .error e2
          | .ok (ok, err, b2) =>
            if ¬ ok then .ok ⟨false, none, none, err⟩
            else .ok ⟨true, some b2, cid, none⟩

/-- Embedding of `validators.validate_delete_request`: id presence (`is None`
check), customerId presence (`is None` check), then id UUID format. -/
def validate_delete_request (e : Event) : Except PyErr DeleteValidationResult :=
  let pp := e.pathParameters.getD []
  let oid := lookupStr pp "id"
  let cid := lookupStr pp "customerId"
  match oid with
  | none => .ok ⟨false, none, none, some "Missing service order id in path parameters"⟩
  | some oidS =>
    match cid with
    | none => .ok ⟨false, none, none, some "Missing customerId in path parameters"⟩
    | some cidS =>
      match validate_uuid (.vstr oidS) with
      | .error e0 => .error e0
      | .ok (isValid, _) =>
        if ¬ isValid then
          .ok ⟨false, none, none, some "Invalid UUID format for service order id"⟩
        else .ok ⟨true, some oidS, some cidS, none⟩

/-- Embedding of `validators.validate_get_request`: customerId required, id
optional but must be a well-formed UUID when truthy, locationId passed
through. -/
def validate_get_request (e : Event) : Except PyErr GetValidationResult :=
  let pp := e.pathParameters.getD []
  let oid := lookupStr pp "id"
  let cid := lookupStr pp "customerId"
  if ¬ truthyOptS cid then
    .ok ⟨false, none, none, none, some "Missing customerId in path parameters"⟩
  else
    let qp := e.queryStringParameters.getD []
    let loc := lookupStr qp "locationId"
    if truthyOptS oid then
      match validate_uuid (.vstr (oid.getD "")) with
      | .error e0 => .error e0
      | .ok (isValid, _) =>
        if ¬ isValid then
          .ok ⟨false, none, none, none, some "Invalid UUID format for service order id"⟩
        else .ok ⟨true, oid, cid, loc, none⟩
    else .ok ⟨true, oid, cid, loc, none⟩

/-- Gregorian leap-year test. -/
def isLeap (y : Nat) : Bool := (y % 4 == 0 && y % 100 != 0) || y % 400 == 0

/-- Days in a month of the proleptic Gregorian calendar. -/
def daysInMonth (y m : Nat) : Nat :=
  if m = 2 then (if isLeap y then 29 else 28)
  else if m = 4 || m = 6 || m = 9 || m = 11 then 30
  else 31

/-- Model of `datetime.fromisoformat` on the extended date-only form
`YYYY-MM-DD` it receives in this code base (the renderer only ever hands it
the date part split off an ISO timestamp, or a stored `service_date`): a real
calendar date with year 1..9999. -/
def fromIsoformatDate (s : String) : Bool :=
  match s.data with
  | [y1, y2, y3, y4, '-', m1, m2, '-', d1, d2] =>
    [y1, y2, y3, y4, m1, m2, d1, d2].all isDig &&
      (let y := natOfDigits [y1, y2, y3, y4]
       let m := natOfDigits [m1, m2]
       let d := natOfDigits [d1, d2]
       1 ≤ y && 1 ≤ m && m ≤ 12 && 1 ≤ d && d ≤ daysInMonth y m)
  | _ => false

/-- Simple model of `datetime.fromisoformat` on a full string: either a plain
calendar date or a date, `T`, and a basic `HH:MM[:SS]` time. -/
def fromIsoformatFull (s : String) : Bool :=
  if fromIsoformatDate s then true
  else
    match s.data.splitOn 'T' with
    | [datePart, timePart] =>
      fromIsoformatDate ⟨datePart⟩ &&
        (match isoTimeParse false timePart with
         | some p => p.hh ≤ 23 && p.mm ≤ 59 && (p.ss.getD 0) ≤ 59 && !p.nl
         | none => false)
    | _ => false

/-- Embedding of `models.validate_date_format`: `None` passes, otherwise the
string must parse with `datetime.fromisoformat`, else `ValueError`. -/
def validateDateFormat : Option String → Except PyErr (Option String)
  | none => .ok none
  | some s => if fromIsoformatDate s then .ok (some s) else .error .valueError

/-- Embedding of `models.validate_time_format`: `None` passes; a string
matching the models-module time regex (seconds optional) with hour 0..23
passes; otherwise it must parse with `datetime.fromisoformat`, else
`ValueError`. -/
def validateTimeFormat : Option String → Except PyErr (Option String)
  | none => .ok none
  | some s =>
    if (isoTimeParse false s.data).isSome &&
        (match pyIntDecOfChars (s.data.takeWhile (· ≠ ':')) with
         | some h => decide (0 ≤ h ∧ h ≤ 23)
         | none => false) then
      .ok (some s)
    else if fromIsoformatFull s then .ok (some s)
    else .error .valueError

/-- The `ServiceOrderCreate` dataclass.  UUID-valued fields carry the
canonical 32 lowercase hex digits of the parsed `uuid.UUID` object. -/
structure ServiceOrderCreate where
  unit_id : String
  action_id : String
  service_date : Option String
  service_time : Option String
  service_duration : Option Int
  service_status : Option String
  employee_id : Option String
  service_notes : Option String
  location_id : String
deriving Repr

/-- The `ServiceOrderUpdate` dataclass (the base fields, no `location_id`). -/
structure ServiceOrderUpdate where
  unit_id : String
  action_id : String
  service_date : Option String
  service_time : Option String
  service_duration : Option Int
  service_status : Option String
  employee_id : Option String
  service_notes : Option String
deriving Repr

/-- Attribute lookup `ServiceOrderCreate.model_validate` performed at
`app.py` line 94.  `models.py` defines `ServiceOrderCreate` as a plain
`dataclasses.dataclass` (its only class-level callables are `from_dict`,
`to_dict` and `__post_init__`), so no `model_validate` attribute exists and
Python raises `AttributeError` before any instance is built. -/
def serviceOrderCreateModelValidate (_body : PyVal) : Except PyErr ServiceOrderCreate :=
  .error .attributeError

/-- Attribute lookup `ServiceOrderUpdate.model_validate` performed at
`app.py` line 138; like the create model, the dataclass defines no such
attribute, so the lookup raises `AttributeError`. -/
def serviceOrderUpdateModelValidate (_body : PyVal) : Except PyErr ServiceOrderUpdate :=
  .error .attributeError

/-- The `DynamoDBServiceOrder` dataclass: the stored-item shape.  String
fields hold the stored text (`PK` is the order id, `SK` the customer id). -/
structure DynamoDBServiceOrder where
  PK : String
  SK : String
  unit_id : String
  action_id : String
  created_at : String
  location_id : Option String
  service_date : Option String
  service_time : Option String
  service_duration : Option Int
  service_status : Option String
  employee_id : Option String
  service_notes : Option String
  updated_at : Option String
  deleted_at : Option String
deriving Repr

/-- Attribute lookup `db_item.dict` performed at `repository.py` line 63.
`DynamoDBServiceOrder` defines `to_dict`, `from_service_order` and
`to_response_model` but no `dict` method, so the lookup raises
`AttributeError`. -/
def dynamoDbServiceOrderDictM (_db : DynamoDBServiceOrder) : Except PyErr Dict :=
  .error .attributeError

/-- Attribute lookup `service_order.dict` performed at `repository.py` line
135; the `ServiceOrderUpdate` dataclass defines `to_dict` but no `dict`
method, so the lookup raises `AttributeError`. -/
def serviceOrderUpdateDictM (_so : ServiceOrderUpdate) : Except PyErr Dict :=
  .error .attributeError

/-- Keep an optional stored string only when truthy, the `if self.field:`
guard used throughout the mappers. -/
def optTruthy : Option String → Option String
  | some s => if s ≠ "" then some s else none
  | none => none

/-- Embedding of `DynamoDBServiceOrder.from_service_order` for a create
payload: required fields copied with `str()` of the UUID objects, each
optional field copied only when truthy (`service_duration` when not `None`),
`created_at` set to the given timestamp. -/
def fromServiceOrder (orderIdHex : String) (customerId : String)
    (so : ServiceOrderCreate) (timestamp : String) : DynamoDBServiceOrder where
  PK := uuidStr orderIdHex
  SK := customerId
  unit_id := uuidStr so.unit_id
  action_id := uuidStr so.action_id
  created_at := timestamp
  location_id := if so.location_id ≠ "" then some so.location_id else none
  service_date := optTruthy so.service_date
  service_time := optTruthy so.service_time
  service_duration := so.service_duration
  service_status := optTruthy so.service_status
  employee_id := (so.employee_id).map uuidStr
  service_notes := optTruthy so.service_notes
  updated_at := none
  deleted_at := none

/-- Field names of the `DynamoDBServiceOrder` dataclass, for the keyword
construction `DynamoDBServiceOrder(**item)`. -/
def dynamoFieldNames : List String :=
  ["PK", "SK", "unit_id", "action_id", "created_at", "location_id", "service_date",
   "service_time", "service_duration", "service_status", "employee_id",
   "service_notes", "updated_at", "deleted_at"]

/-- Read an optional string field out of a stored item. -/
def itemOptStr (item : Dict) (k : String) : Except PyErr (Option String) :=
  match dictGet item k with
  | none => .ok none
  | some .vnone => .ok none
  | some (.vstr s) => .ok (some s)
  | some _ => .error .typeError

/-- Read a required string field out of a stored item (a missing required
keyword raises `TypeError` in the dataclass constructor). -/
def itemReqStr (item : Dict) (k : String) : Except PyErr String :=
  match dictGet item k with
  | some (.vstr s) => .ok s
  | some _ => .error .typeError
  | none => .error .typeError

/-- Embedding of `DynamoDBServiceOrder(**item)`: the five required fields
must be present, no unknown keyword is accepted, and each field must carry
its declared shape (every item this repository writes does; a shape violation
is mapped to `TypeError`, observationally the same 500 the source produces
when the mistyped value explodes during rendering). -/
def dynamoOfItem (item : Dict) : Except PyErr DynamoDBServiceOrder :=
  if ¬ item.all (fun p => dynamoFieldNames.contains p.1) then .error .typeError
  else
    match itemReqStr item "PK", itemReqStr item "SK", itemReqStr item "unit_id",
        itemReqStr item "action_id", itemReqStr item "created_at" with
    | .ok pk, .ok sk, .ok uid, .ok aid, .ok cat =>
      match itemOptStr item "location_id", itemOptStr item "service_date",
          itemOptStr item "service_time", itemOptStr item "service_status",
          itemOptStr item "employee_id" with
      | .ok loc, .ok sdate, .ok stime, .ok sstat, .ok emp =>
        match itemOptStr item "service_notes", itemOptStr item "updated_at",
            itemOptStr item "deleted_at" with
        | .ok snotes, .ok upd, .ok del =>
          match dictGet item "service_duration" with
          | some (.vint n) =>
            .ok ⟨pk, sk, uid, aid, cat, loc, sdate, stime, some n, sstat, emp, snotes, upd, del⟩
          | none =>
            .ok ⟨pk, sk, uid, aid, cat, loc, sdate, stime, none, sstat, emp, snotes, upd, del⟩
          | some .vnone =>
            .ok ⟨pk, sk, uid, aid, cat, loc, sdate, stime, none, sstat, emp, snotes, upd, del⟩
          | some _ => .error .typeError
        | _, _, _ => .error .typeError
      | _, _, _, _, _ => .error .typeError
    | _, _, _, _, _ => .error .typeError

/-- The `ServiceOrderResponse` dataclass.  UUID-valued fields carry the
canonical 32 lowercase hex digits of the `uuid.UUID` objects the renderer
builds. -/
structure ServiceOrderResponse where
  id : String
  customer_id : String
  unit_id : String
  action_id : String
  created_at : String
  location_id : Option String
  service_date : Option String
  service_time : Option String
  service_duration : Option Int
  service_status : Option String
  employee_id : Option String
  service_notes : Option String
  updated_at : Option String
  deleted_at : Option String
deriving Repr

/-- Timestamp check of `ServiceOrderResponse.__post_init__`: when the value
is truthy and contains a `T`, the part before the `T` must be a parseable
date; without a `T` the check is vacuous (`validate_date_format(None)`). -/
def timestampOk (s : String) : Bool :=
  if s ≠ "" then
    if s.data.contains 'T' then fromIsoformatDate ⟨s.data.takeWhile (· ≠ 'T')⟩ else true
  else true

/-- Embedding of the `ServiceOrderResponse` constructor together with its
`__post_init__` checks.  The UUID re-validations are vacuous here because the
only caller hands the constructor already-parsed `uuid.UUID` objects, on
which `models.validate_uuid` is the identity; the remaining checks
(`customer_id` truthy, timestamp shape, `service_date`/`service_time`
format) raise `ValueError` exactly as in the source. -/
def serviceOrderResponseMk (r : ServiceOrderResponse) : Except PyErr ServiceOrderResponse :=
  if r.customer_id = "" then .error .valueError
  else if ¬ timestampOk r.created_at then .error .valueError
  else if ¬ timestampOk ((r.updated_at).getD "") then .error .valueError
  else if ¬ timestampOk ((r.deleted_at).getD "") then .error .valueError
  else
    match validateDateFormat r.service_date with
    | .error e => .error e
    | .ok _ =>
      match validateTimeFormat r.service_time with
      | .error e => .error e
      | .ok _ => .ok r

/-- Embedding of `DynamoDBServiceOrder.to_response_model`: decode the stored
identifier strings back into `uuid.UUID` objects (a corrupted stored value
raises `ValueError`, an internal error, not a validation error), copy each
optional field only when truthy (`service_duration` when not `None`), then
run the response constructor. -/
def toResponseModel (db : DynamoDBServiceOrder) : Except PyErr ServiceOrderResponse :=
  match pyUuidNew (.vstr db.PK) with
  | .error e => .error e
  | .ok idU =>
    match pyUuidNew (.vstr db.unit_id) with
    | .error e => .error e
    | .ok uidU =>
      match pyUuidNew (.vstr db.action_id) with
      | .error e => .error e
      | .ok aidU =>
        let empR : Except PyErr (Option String) :=
          match optTruthy db.employee_id with
          | some s =>
            match pyUuidNew (.vstr s) with
            | .error e => .error e
            | .ok u => .ok (some u)
          | none => .ok none
        match empR with
        | .error e => .error e
        | .ok empU =>
          serviceOrderResponseMk
            { id := idU, customer_id := db.SK, unit_id := uidU, action_id := aidU,
              created_at := db.created_at,
              location_id := optTruthy db.location_id,
              service_date := optTruthy db.service_date,
              service_time := optTruthy db.service_time,
              service_duration := db.service_duration,
              service_status := optTruthy db.service_status,
              employee_id := empU,
              service_notes := optTruthy db.service_notes,
              updated_at := optTruthy db.updated_at,
              deleted_at := optTruthy db.deleted_at }

/-- Render an optional string as the Python value `asdict` yields. -/
def optSVal : Option String → PyVal
  | none => .vnone
  | some s => .vstr s

/-- Embedding of `ServiceOrderResponse.model_dump()` as invoked by the
handlers — with no arguments, so `exclude_none` defaults to `False` and
`to_dict` keeps every field, rendering absent optionals as `None`; `asdict`
lists the fields in declaration order and the follow-up loop turns `uuid.UUID`
values into their hyphenated string form. -/
def modelDump (r : ServiceOrderResponse) : Dict :=
  [("id", .vstr (uuidStr r.id)),
   ("customer_id", .vstr r.customer_id),
   ("unit_id", .vstr (uuidStr r.unit_id)),
   ("action_id", .vstr (uuidStr r.action_id)),
   ("created_at", .vstr r.created_at),
   ("location_id", optSVal r.location_id),
   ("service_date", optSVal r.service_date),
   ("service_time", optSVal r.service_time),
   ("service_duration", match r.service_duration with | none => .vnone | some n => .vint n),
   ("service_status", optSVal r.service_status),
   ("employee_id", match r.employee_id with | none => .vnone | some u => .vstr (uuidStr u)),
   ("service_notes", optSVal r.service_notes),
   ("updated_at", optSVal r.updated_at),
   ("deleted_at", optSVal r.deleted_at)]

/-- A stored DynamoDB item. -/
abbrev Item := Dict

/-- The DynamoDB table, the explicit state threaded through the repository. -/
abbrev Table := List Item

/-- Key match against an item's `PK`/`SK` attributes. -/
def itemMatchesKey (it : Item) (pk sk : String) : Bool :=
  (match dictGet it "PK" with | some (.vstr s) => s == pk | _ => false) &&
  (match dictGet it "SK" with | some (.vstr s) => s == sk | _ => false)

/-- DynamoDB `get_item` on the composite key. -/
def tableGetItem (tbl : Table) (pk sk : String) : Option Item :=
  tbl.find? (itemMatchesKey · pk sk)

/-- DynamoDB `put_item`: replace the item with the same key, else insert. -/
def tablePutItem : Table → Item → Table
  | [], it => [it]
  | old :: rest, it =>
    match dictGet it "PK", dictGet it "SK" with
    | some (.vstr pk), some (.vstr sk) =>
      if itemMatchesKey old pk sk then it :: rest else old :: tablePutItem rest it
    | _, _ => old :: rest ++ [it]

/-- DynamoDB `update_item` with a `SET` expression: apply the assignments to
the matching item (or create one from the key and the assignments, as
DynamoDB does) and return the `ALL_NEW` image together with the new table. -/
def tableUpdateItem : Table → String → String → List (String × PyVal) → Item × Table
  | [], pk, sk, sets =>
    let it := sets.foldl (fun d p => dictSet d p.1 p.2) [("PK", .vstr pk), ("SK", .vstr sk)]
    (it, [it])
  | old :: rest, pk, sk, sets =>
    if itemMatchesKey old pk sk then
      let it := sets.foldl (fun d p => dictSet d p.1 p.2) old
      (it, it :: rest)
    else
      let (it, rest2) := tableUpdateItem rest pk sk sets
      (it, old :: rest2)

/-- Embedding of `ServiceOrderRepository.get_service_order`: `get_item` on
the key; a missing or falsy `Item` is reported as not found. -/
def getServiceOrder (tbl : Table) (orderId customerId : String) : Option Item :=
  match tableGetItem tbl orderId customerId with
  | some it => if truthy (.vdict it) then some it else none
  | none => none

/-- Embedding of `ServiceOrderRepository.create_service_order`: build the
stored item via `from_service_order`, then call `db_item.dict(...)` — an
attribute that does not exist, so the call raises `AttributeError` before
anything is put into the table.  The put and return that follow in the source
are unreachable but embedded after the failing lookup. -/
def createServiceOrder (tbl : Table) (orderId customerId : String)
    (so : ServiceOrderCreate) (timestamp : String) : Except PyErr (Item × Table) :=
  match pyUuidNew (.vstr orderId) with
  | .error e => .error e
  | .ok hexId =>
    let dbItem := fromServiceOrder hexId customerId so timestamp
    match dynamoDbServiceOrderDictM dbItem with
    | .error e => .error e
    | .ok itemDict => .ok (itemDict, tablePutItem tbl itemDict)

/-- Embedding of `ServiceOrderRepository.update_service_order`: read the
existing item (`None` when absent), then call `service_order.dict(...)` — an
attribute that does not exist, so the call raises `AttributeError` before any
update expression is built or sent.  The expression construction and
`update_item` that follow in the source are unreachable but embedded after
the failing lookup. -/
def updateServiceOrder (tbl : Table) (orderId customerId : String)
    (so : ServiceOrderUpdate) (timestamp : String) : Except PyErr (Option Item × Table) :=
  match getServiceOrder tbl orderId customerId with
  | none => .ok (none, tbl)
  | some _ =>
    match serviceOrderUpdateDictM so with
    | .error e => .error e
    | .ok modelDict =>
      let sets := ("updated_at", PyVal.vstr timestamp) ::
        modelDict.filter (fun p =>
          ["unit_id", "action_id", "service_date", "service_time", "service_duration",
           "service_status", "employee_id", "service_notes"].contains p.1)
      let (it, tbl2) := tableUpdateItem tbl orderId customerId sets
      .ok (some it, tbl2)

/-- Embedding of `ServiceOrderRepository.mark_service_order_deleted`: report
`False` when the item is absent, else `SET deleted_at = :deleted_at` and
report `True`. -/
def markServiceOrderDeleted (tbl : Table) (orderId customerId timestamp : String) :
    Bool × Table :=
  match getServiceOrder tbl orderId customerId with
  | none => (false, tbl)
  | some _ =>
    let (_, tbl2) := tableUpdateItem tbl orderId customerId [("deleted_at", .vstr timestamp)]
    (true, tbl2)

/-- Embedding of `ServiceOrderRepository.query_service_orders_by_customer`:
all items whose `SK` equals the customer id, filtered on `location_id` only
when a truthy one is given; pagination is drained before returning, so the
result is the full match set. -/
def queryServiceOrdersByCustomer (tbl : Table) (customerId : String)
    (locationId : Option String) : List Item :=
  let base := tbl.filter (fun it =>
    match dictGet it "SK" with | some (.vstr s) => s == customerId | _ => false)
  match locationId with
  | some l =>
    if l ≠ "" then
      base.filter (fun it =>
        match dictGet it "location_id" with | some (.vstr s) => s == l | _ => false)
    else base
  | none => base

/-- Response envelope produced by `create_response` (the body is kept as the
Python object handed to `json.dumps`; a `none` body means the `body` key is
omitted from the envelope). -/
structure ApiResponse where
  statusCode : Nat
  headers : List (String × String)
  body : Option PyVal
deriving Repr

/-- The constant CORS headers of `create_response`. -/
def corsHeaders : List (String × String) :=
  [("Content-Type", "application/json"),
   ("Access-Control-Allow-Origin", "*"),
   ("Access-Control-Allow-Methods", "OPTIONS,POST,GET,PUT,DELETE"),
   ("Access-Control-Allow-Headers", "Content-Type,X-Amz-Date,Authorization,X-Api-Key")]

/-- Embedding of `app.create_response`. -/
def createResponse (statusCode : Nat) (body : Option PyVal) : ApiResponse :=
  ⟨statusCode, corsHeaders, body⟩

/-- The 500 envelope every handler's broad `except Exception` produces. -/
def internalErrorResponse : ApiResponse :=
  createResponse 500 (some (.vdict [("error", .vstr "Internal server error")]))

/-- The 404 envelope for a missing service order. -/
def notFoundResponse : ApiResponse :=
  createResponse 404 (some (.vdict [("error", .vstr "Service order not found")]))

/-- The 400 envelope wrapping a validation error message. -/
def badRequestResponse (msg : Option String) : ApiResponse :=
  createResponse 400 (some (.vdict [("error", optSVal msg)]))

/-- Placeholder body for the `except ValidationError` branch (unreachable in
the embedded pipeline: nothing raises pydantic's `ValidationError`, so the
`str(e)` it would interpolate is not modelled). -/
def validationErrorResponse : ApiResponse :=
  createResponse 400 (some (.vdict [("error", .vstr "validation error")]))

/-- Embedding of `app.handle_create_request`.  `freshId` stands for
`str(uuid.uuid4())`, `timestamp` for `datetime.utcnow().isoformat()`.
Validation failure gives 400; inside the `try`, the first step
`ServiceOrderCreate.model_validate(body)` raises `AttributeError` (see
`serviceOrderCreateModelValidate`), which only the broad `except Exception`
catches, producing the 500 envelope; the repository call, rendering and 201
return are embedded but unreachable. -/
def handleCreateRequest (e : Event) (tbl : Table) (freshId timestamp : String) :
    Except PyErr (ApiResponse × Table) :=
  match validate_create_request e with
  | .error e0 => .error e0
  | .ok vr =>
    if ¬ vr.is_valid then .ok (badRequestResponse vr.error, tbl)
    else
      let body := vr.body.getD (.vdict [])
      let cust := lookupStr (e.pathParameters.getD []) "customerId"
      let attempt : Except PyErr (PyVal × Table) :=
        match serviceOrderCreateModelValidate body with
        | .error e1 => .error e1
        | .ok so =>
          match createServiceOrder tbl freshId (cust.getD "") so timestamp with
          | .error e2 => .error e2
          | .ok (item, tbl2) =>
            match dynamoOfItem item with
            | .error e3 => .error e3
            | .ok db =>
              match toResponseModel db with
              | .error e4 => .error e4
              | .ok r => .ok (.vdict (modelDump r), tbl2)
      match attempt with
      | .ok (bodyOut, tbl2) => .ok (createResponse 201 (some bodyOut), tbl2)
      | .error .validationError => .ok (validationErrorResponse, tbl)
      | .error _ => .ok (internalErrorResponse, tbl)

/-- Embedding of `app.handle_update_request`.  Validation failure gives 400;
inside the `try`, `ServiceOrderUpdate.model_validate(body)` raises
`AttributeError` (see `serviceOrderUpdateModelValidate`), caught by the broad
`except Exception` into the 500 envelope; the not-found 404, rendering and
200 return are embedded but unreachable. -/
def handleUpdateRequest (e : Event) (tbl : Table) (timestamp : String) :
    Except PyErr (ApiResponse × Table) :=
  match validate_update_request e with
  | .error e0 => .error e0
  | .ok vr =>
    if ¬ vr.is_valid then .ok (badRequestResponse vr.error, tbl)
    else
      let body := vr.body.getD (.vdict [])
      let oid := lookupStr (e.pathParameters.getD []) "id"
      let attempt : Except PyErr (Option PyVal × Table) :=
        match serviceOrderUpdateModelValidate body with
        | .error e1 => .error e1
        | .ok so =>
          match vr.customer_id with
          | none => .error .valueError
          | some c =>
            match updateServiceOrder tbl (oid.getD "") c so timestamp with
            | .error e2 => .error e2
            | .ok (none, tbl2) => .ok (none, tbl2)
            | .ok (some it, tbl2) =>
              match dynamoOfItem it with
              | .error e3 => .error e3
              | .ok db =>
                match toResponseModel db with
                | .error e4 => .error e4
                | .ok r => .ok (some (.vdict (modelDump r)), tbl2)
      match attempt with
      | .ok (none, tbl2) => .ok (notFoundResponse, tbl2)
      | .ok (some b, tbl2) => .ok (createResponse 200 (some b), tbl2)
      | .error .validationError => .ok (validationErrorResponse, tbl)
      | .error _ => .ok (internalErrorResponse, tbl)

/-- Embedding of `app.handle_delete_request`: validation failure gives 400; a
`None` id or customer after validation raises inside the `try` and lands in
the 500 branch; otherwise the repository marks the record and the handler
answers 204 (no body) or 404. -/
def handleDeleteRequest (e : Event) (tbl : Table) (timestamp : String) :
    Except PyErr (ApiResponse × Table) :=
  match validate_delete_request e with
  | .error e0 => .error e0
  | .ok vr =>
    if ¬ vr.is_valid then .ok (badRequestResponse vr.error, tbl)
    else
      match vr.order_id, vr.customer_id with
      | some o, some c =>
        let (success, tbl2) := markServiceOrderDeleted tbl o c timestamp
        if ¬ success then .ok (notFoundResponse, tbl2)
        else .ok (createResponse 204 none, tbl2)
      | _, _ => .ok (internalErrorResponse, tbl)

/-- Render a list of stored items, failing on the first corrupt one. -/
def renderItems : List Item → Except PyErr (List PyVal)
  | [] => .ok []
  | it :: rest =>
    match dynamoOfItem it with
    | .error e => .error e
    | .ok db =>
      match toResponseModel db with
      | .error e => .error e
      | .ok r =>
        match renderItems rest with
        | .error e => .error e
        | .ok bs => .ok (.vdict (modelDump r) :: bs)

/-- Embedding of `app.handle_get_request`: with a truthy id, a single lookup
(404 when absent, 200 with the rendered record otherwise); without one, a
customer query optionally filtered by location, answered 200 with the list
(empty list included).  Any exception inside the `try` — a corrupt stored
record, for instance — lands in the 500 branch. -/
def handleGetRequest (e : Event) (tbl : Table) : Except PyErr (ApiResponse × Table) :=
  match validate_get_request e with
  | .error e0 => .error e0
  | .ok vr =>
    if ¬ vr.is_valid then .ok (badRequestResponse vr.error, tbl)
    else
      if truthyOptS vr.order_id then
        match vr.customer_id with
        | none => .ok (internalErrorResponse, tbl)
        | some c =>
          match getServiceOrder tbl ((vr.order_id).getD "") c with
          | none => .ok (notFoundResponse, tbl)
          | some item =>
            match dynamoOfItem item with
            | .error _ => .ok (internalErrorResponse, tbl)
            | .ok db =>
              match toResponseModel db with
              | .error _ => .ok (internalErrorResponse, tbl)
              | .ok r => .ok (createResponse 200 (some (.vdict (modelDump r))), tbl)
      else
        match vr.customer_id with
        | none => .ok (internalErrorResponse, tbl)
        | some c =>
          match renderItems (queryServiceOrdersByCustomer tbl c vr.location_id) with
          | .error _ => .ok (internalErrorResponse, tbl)
          | .ok bs => .ok (createResponse 200 (some (.vlist bs)), tbl)

/-- Embedding of `app.lambda_handler`: `OPTIONS` is answered 200 with no body
before anything else; the four CRUD methods dispatch to their handlers; any
other method (or a missing one) is answered 405.  `freshId` and `timestamp`
stand for the environment's `uuid.uuid4()` and `datetime.utcnow()`. -/
def lambdaHandler (e : Event) (tbl : Table) (freshId timestamp : String) :
    Except PyErr (ApiResponse × Table) :=
  match e.httpMethod with
  | some "OPTIONS" => .ok (createResponse 200 none, tbl)
  | some "POST" => handleCreateRequest e tbl freshId timestamp
  | some "PUT" => handleUpdateRequest e tbl timestamp
  | some "DELETE" => handleDeleteRequest e tbl timestamp
  | some "GET" => handleGetRequest e tbl
  | _ => .ok (createResponse 405 (some (.vdict [("error", .vstr "Method not allowed")])), tbl)

/-- Decimal digit character for a value 0..9. -/
def digitChar10 (n : Nat) : Char :=
  ['0', '1', '2', '3', '4', '5', '6', '7', '8', '9'].getD n '0'

/-- Two-digit zero-padded rendering of a value below 100. -/
def twoDig (n : Nat) : List Char := [digitChar10 (n / 10), digitChar10 (n % 10)]

/-- Four-digit zero-padded rendering of a value below 10000. -/
def fourDig (n : Nat) : List Char := twoDig (n / 100) ++ twoDig (n % 100)

/-- Spec-side rendering of a timezone suffix. -/
def renderTz : TzParts → List Char
  | .z => ['Z']
  | .off neg oh om => (if neg then '-' else '+') :: (twoDig oh ++ ':' :: twoDig om)

/-- Spec-side rendering of an optional timezone suffix. -/
def renderTzOpt : Option TzParts → List Char
  | none => []
  | some t => renderTz t

/-- Spec-side rendering of an optional seconds group. -/
def renderSecOpt : Option Nat → List Char
  | none => []
  | some s => ':' :: twoDig s

/-- Spec-side rendering of an optional fraction group. -/
def renderFracOpt : Option (List Char) → List Char
  | none => []
  | some ds => '.' :: ds

/-- Spec-side rendering of the optional trailing newline Python's `$`
tolerates. -/
def renderNl (nl : Bool) : List Char := if nl then ['\n'] else []

/-- Spec-side rendering of a full time string
`HH:MM[:SS][.ffff][Z|±HH:MM]` from its parts.  This definition follows the
spec's description of the accepted shapes and is compared against the
embedded validator. -/
def renderTime (p : TimeParts) : List Char :=
  twoDig p.hh ++ ':' ::
    (twoDig p.mm ++ (renderSecOpt p.ss ++ (renderFracOpt p.frac ++
      (renderTzOpt p.tz ++ renderNl p.nl))))

/-- Well-formedness of a timezone suffix: offset components are two-digit. -/
def TzWf : TzParts → Prop
  | .z => True
  | .off _ oh om => oh < 100 ∧ om < 100

/-- Well-formedness of a fraction group: at least one digit, digits only. -/
def FracWf : Option (List Char) → Prop
  | none => True
  | some ds => ds ≠ [] ∧ ds.all isDig = true

/-- Well-formedness of time parts: every numeric component two-digit. -/
def TimeWf (p : TimeParts) : Prop :=
  p.hh < 100 ∧ p.mm < 100 ∧ (∀ s, p.ss = some s → s < 100) ∧ FracWf p.frac ∧
    (∀ t, p.tz = some t → TzWf t)

/-- Spec-side rendering of a date string `YYYY-MM-DD` from its parts. -/
def renderDate (p : DateParts) : List Char :=
  fourDig p.y ++ '-' :: (twoDig p.m ++ '-' :: (twoDig p.d ++ renderNl p.nl))

/-- Well-formedness of date parts: four-digit year, two-digit month and
day fields (with no calendar constraint — the embedded validator checks
shape only). -/
def DateWf (p : DateParts) : Prop := p.y < 10000 ∧ p.m < 100 ∧ p.d < 100

/-- Shape of the character list that can follow the fraction group in a
rendered time: empty, or starting with a timezone or newline character —
never a dot and never a digit. -/
def TzNlHead : List Char → Prop
  | [] => True
  | c :: _ => c ≠ '.' ∧ isDig c = false

/-- Status code of a dispatcher outcome (when no exception escaped). -/
def responseStatus (x : Except PyErr (ApiResponse × Table)) : Option Nat :=
  match x with
  | .ok (r, _) => some r.statusCode
  | .error _ => none

/-- A named field of a dict-shaped response body of a dispatcher outcome. -/
def responseBodyField (x : Except PyErr (ApiResponse × Table)) (k : String) : Option PyVal :=
  match x with
  | .ok (r, _) =>
    match r.body with
    | some (.vdict d) => dictGet d k
    | _ => none
  | .error _ => none

/-- The claims' concrete unit identifier. -/
def uuidA : String := "11111111-1111-1111-1111-111111111111"

/-- The claims' concrete action identifier. -/
def uuidB : String := "22222222-2222-2222-2222-222222222222"

/-- A concrete stored order identifier. -/
def uuidC : String := "33333333-3333-3333-3333-333333333333"

/-- The uuid4 the environment would mint. -/
def mintedId : String := "99999999-9999-9999-9999-999999999999"

/-- A concrete invocation timestamp. -/
def ts0 : String := "2025-01-01T00:00:00"

/-- The concrete create scenario of the spec: POST for `cust-1` at `loc-1`
with the two identifiers in the body. -/
def createEvent : Event :=
  ⟨some "POST", some [("customerId", "cust-1")], some [("locationId", "loc-1")],
    some (.vdict [("unit_id", .vstr uuidA), ("action_id", .vstr uuidB)])⟩

/-- A stored record for `cust-1` carrying only the required attributes — all
optional attributes are absent, as the sparse write representation leaves
them. -/
def sparseItem : Item :=
  [("PK", .vstr uuidC), ("SK", .vstr "cust-1"), ("unit_id", .vstr uuidA),
   ("action_id", .vstr uuidB), ("created_at", .vstr "2023-06-15T12:00:00")]

/-- A table holding just the sparse record. -/
def sparseTable : Table := [sparseItem]

/-- A stored record that additionally has `service_notes` set. -/
def notesItem : Item :=
  [("PK", .vstr uuidC), ("SK", .vstr "cust-1"), ("unit_id", .vstr uuidA),
   ("action_id", .vstr uuidB), ("created_at", .vstr "2023-06-15T12:00:00"),
   ("service_notes", .vstr "old notes")]

/-- GET-by-id for the stored record. -/
def getByIdEvent : Event :=
  ⟨some "GET", some [("id", uuidC), ("customerId", "cust-1")], none, none⟩

/-- PUT carrying only a subset of the fields (no `service_notes`). -/
def updateSubsetEvent : Event :=
  ⟨some "PUT", some [("id", uuidC), ("customerId", "cust-1")], none,
    some (.vdict [("unit_id", .vstr uuidA), ("action_id", .vstr uuidB),
      ("service_status", .vstr "in_progress")])⟩

/-- DELETE for the stored record. -/
def deleteEvent : Event :=
  ⟨some "DELETE", some [("id", uuidC), ("customerId", "cust-1")], none, none⟩

/-- First delete invocation against the sparse table. -/
def deleteRun1 : Except PyErr (ApiResponse × Table) :=
  lambdaHandler deleteEvent sparseTable mintedId "2025-01-01T00:00:01"

/-- Table state left by the first delete. -/
def tableAfterDelete1 : Table :=
  match deleteRun1 with
  | .ok (_, t) => t
  | .error _ => []

/-- Second, identical delete invocation against the post-delete table. -/
def deleteRun2 : Except PyErr (ApiResponse × Table) :=
  lambdaHandler deleteEvent tableAfterDelete1 mintedId "2025-01-01T00:00:02"

/-!
Theorems.  Small shared lemmas come first, then one theorem (with witness or
counterexample where required) per claim.
-/

/-- C1: the spec's concrete create scenario (POST for `cust-1`/`loc-1` with
the two identifiers) is answered 500 `Internal server error` with the table
untouched — not the claimed 201 echo — because the handler's first step after
validation, `ServiceOrderCreate.model_validate(body)`, raises
`AttributeError` on the plain dataclass and the broad `except Exception`
swallows it. -/
theorem C1_create_scenario_returns_internal_error :
    lambdaHandler createEvent [] mintedId ts0 = .ok (internalErrorResponse, []) := by
  rfl

/-- C3: a well-formed partial update (only `unit_id`, `action_id`,
`service_status`) against an existing record is answered 500 `Internal server
error` and the stored record is not touched at all: the handler raises
`AttributeError` at `ServiceOrderUpdate.model_validate(body)` before anything
is sent to the store, so no partial patch ever happens. -/
theorem C3_update_subset_returns_internal_error :
    lambdaHandler updateSubsetEvent [notesItem] mintedId ts0 =
      .ok (internalErrorResponse, [notesItem]) := by
  rfl

/-- C2 counterexample: rendering a stored record whose optional fields are
all absent produces a 200 body that still carries `service_notes`, bound to
`None` — the absent optional field is not omitted, refuting the claim. -/
theorem C2_sparse_field_rendered_as_null :
    responseStatus (lambdaHandler getByIdEvent sparseTable mintedId ts0) = some 200 ∧
      responseBodyField (lambdaHandler getByIdEvent sparseTable mintedId ts0)
        "service_notes" = some .vnone :=
  ⟨rfl, rfl⟩

/-- C7 counterexample: deleting the same existing record twice yields 204
both times — the second invocation still finds the soft-deleted record (reads
do not filter on `deleted_at`) and marks it again, refuting the claimed
404. -/
theorem C7_second_delete_also_succeeds :
    responseStatus deleteRun1 = some 204 ∧ responseStatus deleteRun2 = some 204 :=
  ⟨rfl, rfl⟩

/-- C4 counterexample: `"14:30"` has the claimed shape `HH:MM` with hour
14 ≤ 23, yet the time validator rejects it — `ISO_TIME_REGEX` demands a
seconds group. -/
theorem C4_time_without_seconds_rejected :
    validate_iso_time (.vstr "14:30") = false := by
  rfl

/-- C5 counterexample: `"2023-13-45"` is no calendar date, yet the date
validator accepts it — `ISO_DATE_REGEX` checks the digit shape only. -/
theorem C5_noncalendar_date_accepted :
    validate_iso_date (.vstr "2023-13-45") = true := by
  rfl

/-- Head-step equation for dictionary lookup. -/
theorem dictGet_cons (p : String × PyVal) (rest : Dict) (k : String) :
    dictGet (p :: rest) k = if p.1 = k then some p.2 else dictGet rest k := by
  by_cases hp : p.1 = k
  · simp [dictGet, List.find?_cons_of_pos, hp]
  · simp [dictGet, List.find?_cons_of_neg, hp]

/-- In-place replacement of one key leaves lookups of a different key
unchanged. -/
theorem dictGet_map_set_ne (k k2 : String) (v : PyVal) (h : ¬ k = k2) (d : Dict) :
    dictGet (d.map (fun p => if p.1 == k2 then (k2, v) else p)) k = dictGet d k := by
  induction d with
  | nil => rfl
  | cons p rest ih =>
    by_cases hp : p.1 = k2
    · have h1 : (if p.1 == k2 then (k2, v) else p) = (k2, v) := by simp [hp]
      simp only [List.map_cons, h1, dictGet_cons, if_neg (Ne.symm h),
        if_neg (show ¬ p.1 = k from fun hh => h (hh.symm.trans hp))]
      exact ih
    · have h1 : (if p.1 == k2 then (k2, v) else p) = p := by simp [hp]
      simp only [List.map_cons, h1, dictGet_cons]
      by_cases hpk : p.1 = k
      · simp [hpk]
      · simp only [if_neg hpk]; exact ih

/-- Appending a binding for one key leaves lookups of a different key
unchanged. -/
theorem dictGet_append_ne (k k2 : String) (v : PyVal) (h : ¬ k = k2) (d : Dict) :
    dictGet (d ++ [(k2, v)]) k = dictGet d k := by
  induction d with
  | nil =>
    have hb : (k2 == k) = false := by simp [Ne.symm h]
    simp [dictGet, List.find?, hb]
  | cons p rest ih =>
    rw [List.cons_append, dictGet_cons, dictGet_cons]
    by_cases hpk : p.1 = k
    · simp [hpk]
    · simp only [if_neg hpk]; exact ih

/-- Setting one key leaves lookups of a different key unchanged. -/
theorem dictGet_dictSet_ne (d : Dict) (k k2 : String) (v : PyVal) (h : ¬ k = k2) :
    dictGet (dictSet d k2 v) k = dictGet d k := by
  unfold dictSet
  by_cases hk : hasKey d k2
  · simp only [hk, if_true]
    exact dictGet_map_set_ne k k2 v h d
  · simp only [hk, if_false]
    exact dictGet_append_ne k k2 v h d

/-- Key presence is the definedness of the lookup. -/
theorem hasKey_eq_isSome (d : Dict) (k : String) : hasKey d k = (dictGet d k).isSome := by
  unfold hasKey dictGet
  cases d.find? (fun p => p.1 == k) <;> rfl

/-- A successful lookup witnesses key presence. -/
theorem hasKey_of_dictGet (d : Dict) (k : String) (v : PyVal) (h : dictGet d k = some v) :
    hasKey d k = true := by
  rw [hasKey_eq_isSome, h]; rfl

/-- A lookup under an absent key yields nothing. -/
theorem dictGet_of_hasKey_false (d : Dict) (k : String) (h : hasKey d k = false) :
    dictGet d k = none := by
  rw [hasKey_eq_isSome] at h
  cases hg : dictGet d k
  · rfl
  · rw [hg] at h; cases h

/-- Setting one key leaves presence of a different key unchanged. -/
theorem hasKey_dictSet_ne (d : Dict) (k k2 : String) (v : PyVal) (h : ¬ k = k2) :
    hasKey (dictSet d k2 v) k = hasKey d k := by
  rw [hasKey_eq_isSome, hasKey_eq_isSome, dictGet_dictSet_ne d k k2 v h]

/-- A dict with a defined lookup is nonempty. -/
theorem ne_nil_of_dictGet (d : Dict) (k : String) (v : PyVal) (h : dictGet d k = some v) :
    d.isEmpty = false := by
  cases d with
  | nil => simp [dictGet, List.find?] at h
  | cons p rest => rfl

/-- The common field validation skips the UUID-format check for each of the
three identifier fields when its value is the (falsy) empty string, and with
no other optional field present it reports the body valid and unchanged. -/
theorem validateRequestCommon_skips_empty_ids (d : Dict)
    (hu : dictGet d "unit_id" = some (.vstr ""))
    (ha : dictGet d "action_id" = some (.vstr ""))
    (he : dictGet d "employee_id" = none)
    (hsd : hasKey d "service_date" = false)
    (hst : hasKey d "service_time" = false)
    (hdur : hasKey d "service_duration" = false) :
    validateRequestCommon (.vdict d) = .ok (true, none, .vdict d) := by
  have hku : hasKey d "unit_id" = true := hasKey_of_dictGet _ _ _ hu
  have hka : hasKey d "action_id" = true := hasKey_of_dictGet _ _ _ ha
  simp [validateRequestCommon, pyContains, hku, hka, uuidFieldsLoop, hu, ha, he, truthy,
    hsd, hst, hdur]

/-- The common field validation reports a missing `unit_id` key first. -/
theorem validateRequestCommon_missing_unit (d : Dict) (h : hasKey d "unit_id" = false) :
    validateRequestCommon (.vdict d) =
      .ok (false, some "Missing required field: unit_id", .vdict d) := by
  simp [validateRequestCommon, pyContains, h]

/-- The common field validation reports a missing `action_id` key before any
format check — in particular even when the present `unit_id` is malformed. -/
theorem validateRequestCommon_missing_action (d : Dict) (h1 : hasKey d "unit_id" = true)
    (h2 : hasKey d "action_id" = false) :
    validateRequestCommon (.vdict d) =
      .ok (false, some "Missing required field: action_id", .vdict d) := by
  simp [validateRequestCommon, pyContains, h1, h2]

/-- With both required keys present, a truthy malformed `unit_id` yields the
format error. -/
theorem validateRequestCommon_invalid_unit (d : Dict) (su : String)
    (h1 : dictGet d "unit_id" = some (.vstr su)) (h2 : hasKey d "action_id" = true)
    (h3 : su ≠ "") (h4 : pyUuidValid su = false) :
    validateRequestCommon (.vdict d) =
      .ok (false, some "Invalid UUID format for unit_id", .vdict d) := by
  have hku := hasKey_of_dictGet _ _ _ h1
  simp [validateRequestCommon, pyContains, hku, h2, uuidFieldsLoop, h1, truthy, h3, pyStr,
    validate_uuid, pyUuidNew, h4]

/-- C6: on an update request with several defects, exactly the first
violation in the order id presence → id format → customerId presence → body
presence/JSON parse → common checks is reported, and inside the common
checks the required-key checks for `unit_id` and `action_id` come before any
format check (a missing `action_id` wins over a malformed `unit_id`). -/
theorem C6_update_validation_error_order (e : Event) :
    (truthyOptS (lookupStr (e.pathParameters.getD []) "id") = false →
      validate_update_request e =
        .ok ⟨false, none, none, some "Missing service order id in path parameters"⟩) ∧
    (∀ s, lookupStr (e.pathParameters.getD []) "id" = some s → s ≠ "" →
      pyUuidValid s = false →
      validate_update_request e =
        .ok ⟨false, none, none, some "Invalid UUID format for service order id"⟩) ∧
    (∀ s, lookupStr (e.pathParameters.getD []) "id" = some s → s ≠ "" →
      pyUuidValid s = true →
      truthyOptS (lookupStr (e.pathParameters.getD []) "customerId") = false →
      validate_update_request e =
        .ok ⟨false, none, none, some "Missing customerId in path parameters"⟩) ∧
    (∀ s c, lookupStr (e.pathParameters.getD []) "id" = some s → s ≠ "" →
      pyUuidValid s = true →
      lookupStr (e.pathParameters.getD []) "customerId" = some c → c ≠ "" →
      (e.body).getD .vnone = .vnone →
      validate_update_request e =
        .ok ⟨false, none, none, some "Missing request body"⟩) ∧
    (∀ s c bs, lookupStr (e.pathParameters.getD []) "id" = some s → s ≠ "" →
      pyUuidValid s = true →
      lookupStr (e.pathParameters.getD []) "customerId" = some c → c ≠ "" →
      e.body = some (.vstr bs) → jsonLoads bs = none →
      validate_update_request e =
        .ok ⟨false, none, none, some "Invalid JSON in request body"⟩) ∧
    (∀ s c d, lookupStr (e.pathParameters.getD []) "id" = some s → s ≠ "" →
      pyUuidValid s = true →
      lookupStr (e.pathParameters.getD []) "customerId" = some c → c ≠ "" →
      e.body = some (.vdict d) → hasKey d "unit_id" = false →
      validate_update_request e =
        .ok ⟨false, none, none, some "Missing required field: unit_id"⟩) ∧
    (∀ s c d, lookupStr (e.pathParameters.getD []) "id" = some s → s ≠ "" →
      pyUuidValid s = true →
      lookupStr (e.pathParameters.getD []) "customerId" = some c → c ≠ "" →
      e.body = some (.vdict d) → hasKey d "unit_id" = true → hasKey d "action_id" = false →
      validate_update_request e =
        .ok ⟨false, none, none, some "Missing required field: action_id"⟩) ∧
    (∀ s c d su, lookupStr (e.pathParameters.getD []) "id" = some s → s ≠ "" →
      pyUuidValid s = true →
      lookupStr (e.pathParameters.getD []) "customerId" = some c → c ≠ "" →
      e.body = some (.vdict d) → dictGet d "unit_id" = some (.vstr su) → su ≠ "" →
      pyUuidValid su = false → hasKey d "action_id" = true →
      validate_update_request e =
        .ok ⟨false, none, none, some "Invalid UUID format for unit_id"⟩) := by
  refine ⟨?_, ?_, ?_, ?_, ?_, ?_, ?_, ?_⟩
  · intro h
    simp [validate_update_request, h]
  · intro s hid hs hval
    simp [validate_update_request, hid, truthyOptS, hs, validate_uuid, pyUuidNew, hval]
  · intro s hid hs hval hcid
    simp [truthyOptS] at hcid
    simp [validate_update_request, hid, truthyOptS, hs, validate_uuid, pyUuidNew, hval, hcid]
  · intro s c hid hs hval hcid hc hb
    simp [validate_update_request, hid, truthyOptS, hs, validate_uuid, pyUuidNew, hval,
      hcid, hc, hb]
  · intro s c bs hid hs hval hcid hc hb hj
    simp [validate_update_request, hid, truthyOptS, hs, validate_uuid, pyUuidNew, hval,
      hcid, hc, hb, hj]
  · intro s c d hid hs hval hcid hc hb hu
    simp [validate_update_request, hid, truthyOptS, hs, validate_uuid, pyUuidNew, hval,
      hcid, hc, hb, validateRequestCommon_missing_unit d hu]
  · intro s c d hid hs hval hcid hc hb hu ha
    simp [validate_update_request, hid, truthyOptS, hs, validate_uuid, pyUuidNew, hval,
      hcid, hc, hb, validateRequestCommon_missing_action d hu ha]
  · intro s c d su hid hs hval hcid hc hb hu hsu hbad ha
    simp [validate_update_request, hid, truthyOptS, hs, validate_uuid, pyUuidNew, hval,
      hcid, hc, hb, validateRequestCommon_invalid_unit d su hu ha hsu hbad]

/-- Witness for C6: an update event with no path parameters reports the id
first, and one whose body has a malformed `unit_id` but no `action_id`
reports the missing required key, not the format. -/
theorem C6_update_validation_error_order_witness :
    validate_update_request ⟨some "PUT", some [], none, none⟩ =
      .ok ⟨false, none, none, some "Missing service order id in path parameters"⟩ ∧
    validate_update_request
        ⟨some "PUT", some [("id", "33333333-3333-3333-3333-333333333333"),
          ("customerId", "cust-1")], none,
          some (.vdict [("unit_id", .vstr "not-a-uuid")])⟩ =
      .ok ⟨false, none, none, some "Missing required field: action_id"⟩ := by
  constructor
  · exact (C6_update_validation_error_order ⟨some "PUT", some [], none, none⟩).1 rfl
  · exact (C6_update_validation_error_order
      ⟨some "PUT", some [("id", "33333333-3333-3333-3333-333333333333"),
        ("customerId", "cust-1")], none,
        some (.vdict [("unit_id", .vstr "not-a-uuid")])⟩).2.2.2.2.2.2.1
      "33333333-3333-3333-3333-333333333333" "cust-1" [("unit_id", .vstr "not-a-uuid")]
      rfl (by decide) (by decide) rfl (by decide) rfl (by decide) (by decide)

/-- C10: a create or update body that binds `unit_id` and `action_id` to the
empty string passes validation — the walrus-guarded loop skips the UUID
format check for falsy values — with the empty strings left in place, and the
ensuing failure inside the handler surfaces as a 500 internal error, not a
400 validation error. -/
theorem C10_empty_identifier_skips_format_check (cust loc : String) (d : Dict)
    (tbl : Table) (fid ts : String)
    (hc : cust ≠ "") (hl : loc ≠ "")
    (hu : dictGet d "unit_id" = some (.vstr ""))
    (ha : dictGet d "action_id" = some (.vstr ""))
    (hemp : hasKey d "employee_id" = false)
    (hsd : hasKey d "service_date" = false)
    (hst : hasKey d "service_time" = false)
    (hdur : hasKey d "service_duration" = false) :
    validate_create_request
        ⟨some "POST", some [("customerId", cust)], some [("locationId", loc)],
          some (.vdict d)⟩ =
      .ok ⟨true, some (.vdict (dictSet d "location_id" (.vstr loc))), none⟩ ∧
    dictGet (dictSet d "location_id" (.vstr loc)) "unit_id" = some (.vstr "") ∧
    lambdaHandler
        ⟨some "POST", some [("customerId", cust)], some [("locationId", loc)],
          some (.vdict d)⟩ tbl fid ts =
      .ok (internalErrorResponse, tbl) ∧
    validate_update_request
        ⟨some "PUT", some [("id", uuidC), ("customerId", cust)], none, some (.vdict d)⟩ =
      .ok ⟨true, some (.vdict d), some cust, none⟩ ∧
    lambdaHandler
        ⟨some "PUT", some [("id", uuidC), ("customerId", cust)], none, some (.vdict d)⟩
        tbl fid ts =
      .ok (internalErrorResponse, tbl) := by
  have hne : d.isEmpty = false := ne_nil_of_dictGet d _ _ hu
  have hu2 : dictGet (dictSet d "location_id" (.vstr loc)) "unit_id" = some (.vstr "") := by
    rw [dictGet_dictSet_ne d _ _ _ (by decide)]; exact hu
  have ha2 : dictGet (dictSet d "location_id" (.vstr loc)) "action_id" = some (.vstr "") := by
    rw [dictGet_dictSet_ne d _ _ _ (by decide)]; exact ha
  have hemp2 : dictGet (dictSet d "location_id" (.vstr loc)) "employee_id" = none := by
    rw [dictGet_dictSet_ne d _ _ _ (by decide)]; exact dictGet_of_hasKey_false d _ hemp
  have hsd2 : hasKey (dictSet d "location_id" (.vstr loc)) "service_date" = false := by
    rw [hasKey_dictSet_ne d _ _ _ (by decide)]; exact hsd
  have hst2 : hasKey (dictSet d "location_id" (.vstr loc)) "service_time" = false := by
    rw [hasKey_dictSet_ne d _ _ _ (by decide)]; exact hst
  have hdur2 : hasKey (dictSet d "location_id" (.vstr loc)) "service_duration" = false := by
    rw [hasKey_dictSet_ne d _ _ _ (by decide)]; exact hdur
  have hcommon2 := validateRequestCommon_skips_empty_ids _ hu2 ha2 hemp2 hsd2 hst2 hdur2
  have hcommon := validateRequestCommon_skips_empty_ids d hu ha
    (dictGet_of_hasKey_false d _ hemp) hsd hst hdur
  have hvc : validate_create_request
      ⟨some "POST", some [("customerId", cust)], some [("locationId", loc)],
        some (.vdict d)⟩ =
      .ok ⟨true, some (.vdict (dictSet d "location_id" (.vstr loc))), none⟩ := by
    simp [validate_create_request, lookupStr, List.find?, truthyOptS, hc, hl, truthy, hne,
      pySetItem, hcommon2]
  have hvu : validate_update_request
      ⟨some "PUT", some [("id", uuidC), ("customerId", cust)], none, some (.vdict d)⟩ =
      .ok ⟨true, some (.vdict d), some cust, none⟩ := by
    have hval : pyUuidValid "33333333-3333-3333-3333-333333333333" = true := by decide
    simp [validate_update_request, lookupStr, List.find?, truthyOptS, hc, uuidC,
      validate_uuid, pyUuidNew, hval, hcommon]
  refine ⟨hvc, hu2, ?_, hvu, ?_⟩
  · simp [lambdaHandler, handleCreateRequest, hvc, serviceOrderCreateModelValidate]
  · simp [lambdaHandler, handleUpdateRequest, hvu, serviceOrderUpdateModelValidate]

/-- Witness for C10 at the concrete body `unit_id = "" , action_id = ""` for
customer `cust-1` and location `loc-1`. -/
theorem C10_empty_identifier_skips_format_check_witness :
    validate_create_request
        ⟨some "POST", some [("customerId", "cust-1")], some [("locationId", "loc-1")],
          some (.vdict [("unit_id", .vstr ""), ("action_id", .vstr "")])⟩ =
      .ok ⟨true, some (.vdict (dictSet [("unit_id", .vstr ""), ("action_id", .vstr "")]
        "location_id" (.vstr "loc-1"))), none⟩ ∧
    dictGet (dictSet [("unit_id", .vstr ""), ("action_id", .vstr "")] "location_id"
        (.vstr "loc-1")) "unit_id" = some (.vstr "") ∧
    lambdaHandler
        ⟨some "POST", some [("customerId", "cust-1")], some [("locationId", "loc-1")],
          some (.vdict [("unit_id", .vstr ""), ("action_id", .vstr "")])⟩ [] "f" "t" =
      .ok (internalErrorResponse, []) ∧
    validate_update_request
        ⟨some "PUT", some [("id", uuidC), ("customerId", "cust-1")], none,
          some (.vdict [("unit_id", .vstr ""), ("action_id", .vstr "")])⟩ =
      .ok ⟨true, some (.vdict [("unit_id", .vstr ""), ("action_id", .vstr "")]),
        some "cust-1", none⟩ ∧
    lambdaHandler
        ⟨some "PUT", some [("id", uuidC), ("customerId", "cust-1")], none,
          some (.vdict [("unit_id", .vstr ""), ("action_id", .vstr "")])⟩ [] "f" "t" =
      .ok (internalErrorResponse, []) :=
  C10_empty_identifier_skips_format_check "cust-1" "loc-1"
    [("unit_id", .vstr ""), ("action_id", .vstr "")] [] "f" "t"
    (by decide) (by decide) rfl rfl rfl rfl rfl rfl

/-- C8: the dispatcher answers OPTIONS with 200 and no body, answers a
missing method or any method outside the five recognized ones (PATCH, say)
with 405 `Method not allowed`, and hands POST, PUT, DELETE and GET to their
matching handlers. -/
theorem C8_dispatcher_routing (e : Event) (tbl : Table) (fid ts : String) :
    (e.httpMethod = some "OPTIONS" →
      lambdaHandler e tbl fid ts = .ok (createResponse 200 none, tbl)) ∧
    (e.httpMethod = none →
      lambdaHandler e tbl fid ts =
        .ok (createResponse 405 (some (.vdict [("error", .vstr "Method not allowed")])), tbl)) ∧
    (∀ m, e.httpMethod = some m → m ∉ ["OPTIONS", "POST", "PUT", "DELETE", "GET"] →
      lambdaHandler e tbl fid ts =
        .ok (createResponse 405 (some (.vdict [("error", .vstr "Method not allowed")])), tbl)) ∧
    (e.httpMethod = some "POST" → lambdaHandler e tbl fid ts = handleCreateRequest e tbl fid ts) ∧
    (e.httpMethod = some "PUT" → lambdaHandler e tbl fid ts = handleUpdateRequest e tbl ts) ∧
    (e.httpMethod = some "DELETE" → lambdaHandler e tbl fid ts = handleDeleteRequest e tbl ts) ∧
    (e.httpMethod = some "GET" → lambdaHandler e tbl fid ts = handleGetRequest e tbl) := by
  refine ⟨?_, ?_, ?_, ?_, ?_, ?_, ?_⟩
  · intro h; simp [lambdaHandler, h]
  · intro h; simp [lambdaHandler, h]
  · intro m hm hmem
    unfold lambdaHandler
    rw [hm]
    split <;> simp_all
  · intro h; simp [lambdaHandler, h]
  · intro h; simp [lambdaHandler, h]
  · intro h; simp [lambdaHandler, h]
  · intro h; simp [lambdaHandler, h]

/-- Witness for C8: the OPTIONS and PATCH clauses at concrete events. -/
theorem C8_dispatcher_routing_witness :
    lambdaHandler ⟨some "OPTIONS", none, none, none⟩ [] "f" "t" =
      .ok (createResponse 200 none, []) ∧
    lambdaHandler ⟨some "PATCH", none, none, none⟩ [] "f" "t" =
      .ok (createResponse 405 (some (.vdict [("error", .vstr "Method not allowed")])), []) := by
  constructor
  · exact (C8_dispatcher_routing ⟨some "OPTIONS", none, none, none⟩ [] "f" "t").1 rfl
  · exact (C8_dispatcher_routing ⟨some "PATCH", none, none, none⟩ [] "f" "t").2.2.1 "PATCH" rfl
      (by decide)

/-- C9: on every input value, of whatever type, each format validator
terminates with a discriminated result and lets no exception escape: the UUID
validator's catch clause covers every exception its body can raise, and the
date and time validators are total Boolean functions. -/
theorem C9_format_validators_never_raise (v : PyVal) :
    (∃ r, validate_uuid v = .ok r) ∧
    (validate_iso_date v = true ∨ validate_iso_date v = false) ∧
    (validate_iso_time v = true ∨ validate_iso_time v = false) := by
  refine ⟨?_, ?_, ?_⟩
  · cases v <;> simp [validate_uuid, pyUuidNew]
    case vstr s =>
      by_cases h : pyUuidValid s = true
      · simp [h]
      · simp [Bool.not_eq_true] at h
        simp [h]
  · cases h : validate_iso_date v
    · right; rfl
    · left; rfl
  · cases h : validate_iso_time v
    · right; rfl
    · left; rfl

/-- Characters with equal code points are equal. -/
theorem char_eq_of_toNat (c d : Char) (h : c.toNat = d.toNat) : c = d := by
  apply Char.eq_of_val_eq
  apply UInt32.eq_of_val_eq
  exact Fin.eq_of_val_eq h

/-- Code point of the decimal digit character for 0..9. -/
theorem digitChar10_toNat (k : Nat) (h : k ≤ 9) : (digitChar10 k).toNat = 48 + k := by
  interval_cases k <;> rfl

/-- The digit characters are digits. -/
theorem digitChar10_isDig (k : Nat) (h : k ≤ 9) : isDig (digitChar10 k) = true := by
  interval_cases k <;> rfl

/-- Value of a digit character. -/
theorem digVal_digitChar10 (k : Nat) (h : k ≤ 9) : digVal (digitChar10 k) = k := by
  interval_cases k <;> rfl

/-- Being a digit is a code-point interval. -/
theorem isDig_iff (c : Char) : isDig c = true ↔ 48 ≤ c.toNat ∧ c.toNat ≤ 57 := by
  simp [isDig]

/-- A digit character is reconstructed from its value. -/
theorem digitChar10_digVal (c : Char) (h : isDig c = true) : digitChar10 (digVal c) = c := by
  rw [isDig_iff] at h
  apply char_eq_of_toNat
  rw [digitChar10_toNat (digVal c) (by unfold digVal; omega)]
  unfold digVal
  omega

/-- The value of a digit character is below 10. -/
theorem digVal_lt_10 (c : Char) (h : isDig c = true) : digVal c ≤ 9 := by
  rw [isDig_iff] at h
  unfold digVal
  omega

/-- A digit character is none of the structural characters of the time and
date patterns. -/
theorem isDig_ne_special (c : Char) (h : isDig c = true) :
    c ≠ ':' ∧ c ≠ '.' ∧ c ≠ '-' ∧ c ≠ '+' ∧ c ≠ 'Z' ∧ c ≠ '\n' := by
  rw [isDig_iff] at h
  refine ⟨?_, ?_, ?_, ?_, ?_, ?_⟩ <;>
    (intro he; subst he; revert h; decide)

/-- Two-digit rendering parses back to its value. -/
theorem parse2_twoDig (n : Nat) (h : n < 100) (rest : List Char) :
    parse2 (twoDig n ++ rest) = some (n, rest) := by
  have h1 : n / 10 ≤ 9 := by omega
  have h2 : n % 10 ≤ 9 := by omega
  simp [twoDig, parse2, digitChar10_isDig _ h1, digitChar10_isDig _ h2,
    digVal_digitChar10 _ h1, digVal_digitChar10 _ h2]
  omega

/-- A successful two-digit parse came from the rendering of its value. -/
theorem parse2_sound (cs : List Char) (v : Nat) (rest : List Char)
    (h : parse2 cs = some (v, rest)) :
    v < 100 ∧ cs = twoDig v ++ rest := by
  cases cs with
  | nil => cases h
  | cons c1 cs2 =>
  cases cs2 with
  | nil => cases h
  | cons c2 r =>
    unfold parse2 at h
    dsimp only at h
    by_cases hd : (isDig c1 && isDig c2) = true
    · rw [if_pos hd] at h
      rw [Bool.and_eq_true] at hd
      obtain ⟨hc1, hc2⟩ := hd
      injection h with h1
      have hv : 10 * digVal c1 + digVal c2 = v := congrArg Prod.fst h1
      have hr : r = rest := congrArg Prod.snd h1
      subst hr
      have hd1 := digVal_lt_10 c1 hc1
      have hd2 := digVal_lt_10 c2 hc2
      constructor
      · omega
      · have e1 : v / 10 = digVal c1 := by omega
        have e2 : v % 10 = digVal c2 := by omega
        simp [twoDig, e1, e2, digitChar10_digVal c1 hc1, digitChar10_digVal c2 hc2]
    · rw [if_neg hd] at h; cases h

/-- A successful colon parse consumed a leading colon. -/
theorem parseColon_sound (cs rest : List Char) (h : parseColon cs = some rest) :
    cs = ':' :: rest := by
  cases cs with
  | nil => cases h
  | cons c t =>
    unfold parseColon at h
    dsimp only at h
    by_cases hc : c = ':'
    · rw [if_pos hc] at h
      injection h with h1
      rw [hc, h1]
    · rw [if_neg hc] at h; cases h

/-- A colon parses off a leading colon. -/
theorem parseColon_cons (rest : List Char) : parseColon (':' :: rest) = some rest := by
  simp [parseColon]

/-- A successful mandatory-seconds parse consumed `:SS`. -/
theorem parseSec_true_sound (cs : List Char) (os : Option Nat) (rest : List Char)
    (h : parseSec true cs = some (os, rest)) :
    ∃ sv, os = some sv ∧ sv < 100 ∧ cs = renderSecOpt os ++ rest := by
  cases cs with
  | nil => simp [parseSec] at h
  | cons c t =>
    unfold parseSec at h
    dsimp only at h
    by_cases hc : c = ':'
    · rw [if_pos hc] at h
      cases hp : parse2 t with
      | none => rw [hp] at h; cases h
      | some p =>
        rw [hp] at h
        obtain ⟨v, r⟩ := p
        injection h with h1
        have ho : some v = os := congrArg Prod.fst h1
        have hr : r = rest := congrArg Prod.snd h1
        obtain ⟨hv, ht⟩ := parse2_sound t v r hp
        refine ⟨v, ho.symm, hv, ?_⟩
        rw [← ho]
        simp [renderSecOpt, hc, ht, hr]
    · rw [if_neg hc] at h; cases h

/-- The rendering `:SS` parses back to its seconds value. -/
theorem parseSec_true_render (sv : Nat) (h : sv < 100) (rest : List Char) :
    parseSec true (':' :: (twoDig sv ++ rest)) = some (some sv, rest) := by
  simp [parseSec, parse2_twoDig sv h]

/-- Splitting a digit block off a non-digit continuation. -/
theorem takeWhile_dropWhile_digits (ds rest : List Char) (hall : ds.all isDig = true)
    (hrest : TzNlHead rest) :
    (ds ++ rest).takeWhile isDig = ds ∧ (ds ++ rest).dropWhile isDig = rest := by
  induction ds with
  | nil =>
    simp only [List.nil_append]
    cases rest with
    | nil => exact ⟨rfl, rfl⟩
    | cons c t =>
      obtain ⟨_, hc⟩ := hrest
      simp [List.takeWhile_cons, List.dropWhile_cons, hc]
  | cons d ds2 ih =>
    rw [List.all_cons, Bool.and_eq_true] at hall
    obtain ⟨hd, hall2⟩ := hall
    have h2 := ih hall2
    simp [List.takeWhile_cons, List.dropWhile_cons, hd, h2.1, h2.2]

/-- A successful fraction parse consumed exactly the rendered group. -/
theorem parseFrac_sound (cs : List Char) (of : Option (List Char)) (rest : List Char)
    (h : parseFracPart cs = some (of, rest)) :
    cs = renderFracOpt of ++ rest ∧ FracWf of := by
  cases cs with
  | nil =>
    unfold parseFracPart at h
    injection h with h1
    have ho : (none : Option (List Char)) = of := congrArg Prod.fst h1
    have hr : ([] : List Char) = rest := congrArg Prod.snd h1
    rw [← ho, ← hr]
    exact ⟨rfl, trivial⟩
  | cons c t =>
    unfold parseFracPart at h
    dsimp only at h
    by_cases hc : c = '.'
    · rw [if_pos hc] at h
      by_cases he : (t.takeWhile isDig).isEmpty = true
      · rw [if_pos he] at h; cases h
      · rw [if_neg he] at h
        injection h with h1
        have ho : some (t.takeWhile isDig) = of := congrArg Prod.fst h1
        have hr : t.dropWhile isDig = rest := congrArg Prod.snd h1
        rw [← ho, ← hr]
        constructor
        · simp only [renderFracOpt, hc, List.cons_append]
          rw [List.takeWhile_append_dropWhile]
        · refine ⟨by simpa [List.isEmpty_iff] using he, ?_⟩
          rw [List.all_eq_true]
          intro x hx
          exact List.mem_takeWhile_imp hx
    · rw [if_neg hc] at h
      injection h with h1
      have ho : (none : Option (List Char)) = of := congrArg Prod.fst h1
      have hr : c :: t = rest := congrArg Prod.snd h1
      rw [← ho, ← hr]
      exact ⟨rfl, trivial⟩

/-- The rendered fraction group parses back when followed by a timezone or
newline continuation. -/
theorem parseFrac_render (of : Option (List Char)) (hf : FracWf of) (rest : List Char)
    (hrest : TzNlHead rest) :
    parseFracPart (renderFracOpt of ++ rest) = some (of, rest) := by
  cases of with
  | none =>
    simp only [renderFracOpt, List.nil_append]
    cases rest with
    | nil => rfl
    | cons c t =>
      obtain ⟨hc, _⟩ := hrest
      simp [parseFracPart, hc]
  | some ds =>
    obtain ⟨hne, hall⟩ := hf
    obtain ⟨htk, hdr⟩ := takeWhile_dropWhile_digits ds rest hall hrest
    simp only [renderFracOpt, List.cons_append]
    simp [parseFracPart, htk, hdr, List.isEmpty_iff, hne]

/-- A successful timezone parse consumed exactly the rendered group, and a
parsed offset is well-formed. -/
theorem parseTz_sound (cs : List Char) (ot : Option TzParts) (rest : List Char)
    (h : parseTzPart cs = some (ot, rest)) :
    cs = renderTzOpt ot ++ rest ∧ (∀ t, ot = some t → TzWf t) := by
  cases cs with
  | nil =>
    unfold parseTzPart at h
    injection h with h1
    have ho : (none : Option TzParts) = ot := congrArg Prod.fst h1
    have hr : ([] : List Char) = rest := congrArg Prod.snd h1
    rw [← ho, ← hr]
    exact ⟨rfl, by intro t ht; cases ht⟩
  | cons c t =>
    unfold parseTzPart at h
    dsimp only at h
    by_cases hz : c = 'Z'
    · rw [if_pos hz] at h
      injection h with h1
      have ho : some TzParts.z = ot := congrArg Prod.fst h1
      have hr : t = rest := congrArg Prod.snd h1
      rw [← ho, ← hr]
      refine ⟨by simp [renderTzOpt, renderTz, hz], ?_⟩
      intro t2 ht2
      cases ht2
      trivial
    · rw [if_neg hz] at h
      by_cases hp : c = '+'
      · rw [if_pos hp] at h
        cases h2 : parse2 t with
        | none => rw [h2] at h; cases h
        | some p1 =>
          rw [h2] at h
          dsimp only [Option.bind] at h
          obtain ⟨oh, r1⟩ := p1
          cases h3 : parseColon r1 with
          | none => rw [h3] at h; cases h
          | some r2 =>
            rw [h3] at h
            dsimp only [Option.bind] at h
            cases h4 : parse2 r2 with
            | none => rw [h4] at h; cases h
            | some p2 =>
              rw [h4] at h
              dsimp only [Option.map] at h
              obtain ⟨om, r3⟩ := p2
              injection h with h1
              have ho : some (TzParts.off false oh om) = ot := congrArg Prod.fst h1
              have hr : r3 = rest := congrArg Prod.snd h1
              obtain ⟨hoh, ht1⟩ := parse2_sound t oh r1 h2
              obtain ⟨hom, ht2⟩ := parse2_sound r2 om r3 h4
              have hc1 := parseColon_sound r1 r2 h3
              rw [← ho, ← hr]
              constructor
              · simp [renderTzOpt, renderTz, hp, ht1, hc1, ht2]
              · intro t2 ht2x
                cases ht2x
                exact ⟨hoh, hom⟩
      · rw [if_neg hp] at h
        by_cases hmn : c = '-'
        · rw [if_pos hmn] at h
          cases h2 : parse2 t with
          | none => rw [h2] at h; cases h
          | some p1 =>
            rw [h2] at h
            dsimp only [Option.bind] at h
            obtain ⟨oh, r1⟩ := p1
            cases h3 : parseColon r1 with
            | none => rw [h3] at h; cases h
            | some r2 =>
              rw [h3] at h
              dsimp only [Option.bind] at h
              cases h4 : parse2 r2 with
              | none => rw [h4] at h; cases h
              | some p2 =>
                rw [h4] at h
                dsimp only [Option.map] at h
                obtain ⟨om, r3⟩ := p2
                injection h with h1
                have ho : some (TzParts.off true oh om) = ot := congrArg Prod.fst h1
                have hr : r3 = rest := congrArg Prod.snd h1
                obtain ⟨hoh, ht1⟩ := parse2_sound t oh r1 h2
                obtain ⟨hom, ht2⟩ := parse2_sound r2 om r3 h4
                have hc1 := parseColon_sound r1 r2 h3
                rw [← ho, ← hr]
                constructor
                · simp [renderTzOpt, renderTz, hmn, ht1, hc1, ht2]
                · intro t2 ht2x
                  cases ht2x
                  exact ⟨hoh, hom⟩
        · rw [if_neg hmn] at h
          injection h with h1
          have ho : (none : Option TzParts) = ot := congrArg Prod.fst h1
          have hr : c :: t = rest := congrArg Prod.snd h1
          rw [← ho, ← hr]
          exact ⟨rfl, by intro t2 ht2; cases ht2⟩

/-- The rendered timezone group parses back when followed by the newline
rendering. -/
theorem parseTz_render (ot : Option TzParts) (ht : ∀ t, ot = some t → TzWf t) (nl : Bool) :
    parseTzPart (renderTzOpt ot ++ renderNl nl) = some (ot, renderNl nl) := by
  cases ot with
  | none =>
    cases nl with
    | false => rfl
    | true => rfl
  | some tz =>
    cases tz with
    | z => simp [renderTzOpt, renderTz, parseTzPart]
    | off neg oh om =>
      obtain ⟨hoh, hom⟩ := ht _ rfl
      cases neg with
      | false =>
        simp only [renderTzOpt, renderTz, if_neg (by decide : ¬ false = true),
          List.cons_append, List.append_assoc]
        simp [parseTzPart, parse2_twoDig oh hoh, parseColon_cons, parse2_twoDig om hom]
      | true =>
        simp only [renderTzOpt, renderTz, if_pos rfl, List.cons_append, List.append_assoc]
        simp [parseTzPart, parse2_twoDig oh hoh, parseColon_cons, parse2_twoDig om hom]

/-- A successful anchor parse consumed exactly the newline rendering. -/
theorem parseEnd_sound (cs : List Char) (nl : Bool) (h : parseEnd cs = some nl) :
    cs = renderNl nl := by
  cases cs with
  | nil =>
    injection h with h1
    rw [← h1]
    rfl
  | cons c t =>
    cases t with
    | nil =>
      unfold parseEnd at h
      dsimp only at h
      by_cases hc : c = '\n'
      · rw [if_pos hc] at h
        injection h with h1
        rw [← h1, hc]
        rfl
      · rw [if_neg hc] at h; cases h
    | cons c2 t2 => cases h

/-- The newline rendering parses back. -/
theorem parseEnd_render (nl : Bool) : parseEnd (renderNl nl) = some nl := by
  cases nl <;> rfl

/-- The continuation after the fraction group starts with a timezone or
newline character (or is empty). -/
theorem tzNl_head (ot : Option TzParts) (nl : Bool) :
    TzNlHead (renderTzOpt ot ++ renderNl nl) := by
  cases ot with
  | none =>
    cases nl with
    | false => trivial
    | true => exact ⟨by decide, by decide⟩
  | some tz =>
    cases tz with
    | z => exact ⟨by decide, by decide⟩
    | off neg oh om =>
      cases neg with
      | false => exact ⟨by decide, by decide⟩
      | true => exact ⟨by decide, by decide⟩

/-- A successful time-regex match decomposes the subject into rendered
well-formed groups. -/
theorem isoTimeParse_sound (cs : List Char) (p : TimeParts)
    (h : isoTimeParse true cs = some p) :
    cs = renderTime p ∧ p.hh < 100 ∧ p.mm < 100 ∧
      (∃ sv, p.ss = some sv ∧ sv < 100) ∧ FracWf p.frac ∧
      (∀ t, p.tz = some t → TzWf t) := by
  unfold isoTimeParse at h
  cases h1 : parse2 cs with
  | none => rw [h1] at h; cases h
  | some p1 =>
    rw [h1] at h
    dsimp only [Option.bind] at h
    obtain ⟨hh, r1⟩ := p1
    cases h2 : parseColon r1 with
    | none => rw [h2] at h; cases h
    | some r2 =>
      rw [h2] at h
      dsimp only [Option.bind] at h
      cases h3 : parse2 r2 with
      | none => rw [h3] at h; cases h
      | some p2 =>
        rw [h3] at h
        dsimp only [Option.bind] at h
        obtain ⟨mm, r3⟩ := p2
        cases h4 : parseSec true r3 with
        | none => rw [h4] at h; cases h
        | some ps =>
          rw [h4] at h
          dsimp only [Option.bind] at h
          obtain ⟨os, r4⟩ := ps
          cases h5 : parseFracPart r4 with
          | none => rw [h5] at h; cases h
          | some pf =>
            rw [h5] at h
            dsimp only [Option.bind] at h
            obtain ⟨of, r5⟩ := pf
            cases h6 : parseTzPart r5 with
            | none => rw [h6] at h; cases h
            | some pt =>
              rw [h6] at h
              dsimp only [Option.bind] at h
              obtain ⟨ot, r6⟩ := pt
              cases h7 : parseEnd r6 with
              | none => rw [h7] at h; cases h
              | some nl =>
                rw [h7] at h
                dsimp only [Option.map] at h
                injection h with hp0
                obtain ⟨hhlt, hcs⟩ := parse2_sound cs hh r1 h1
                have hr1 := parseColon_sound r1 r2 h2
                obtain ⟨hmlt, hr2⟩ := parse2_sound r2 mm r3 h3
                obtain ⟨sv, hos, hsv, hr3⟩ := parseSec_true_sound r3 os r4 h4
                obtain ⟨hr4, hfwf⟩ := parseFrac_sound r4 of r5 h5
                obtain ⟨hr5, htwf⟩ := parseTz_sound r5 ot r6 h6
                have hr6 := parseEnd_sound r6 nl h7
                subst hp0
                refine ⟨?_, hhlt, hmlt, ⟨sv, hos, hsv⟩, hfwf, htwf⟩
                rw [hcs, hr1, hr2, hr3, hr4, hr5, hr6]
                simp [renderTime, List.append_assoc]

/-- The rendering of well-formed time groups with a seconds field matches the
time regex and recovers the groups. -/
theorem isoTimeParse_complete (p : TimeParts) (sv : Nat)
    (hhlt : p.hh < 100) (hmlt : p.mm < 100) (hss : p.ss = some sv) (hsv : sv < 100)
    (hf : FracWf p.frac) (ht : ∀ t, p.tz = some t → TzWf t) :
    isoTimeParse true (renderTime p) = some p := by
  obtain ⟨hh, mm, ss, fr, tz, nl⟩ := p
  dsimp only at hhlt hmlt hss hf ht ⊢
  subst hss
  unfold renderTime isoTimeParse
  dsimp only
  rw [parse2_twoDig hh hhlt]
  dsimp only [Option.bind]
  rw [parseColon_cons]
  dsimp only [Option.bind]
  rw [parse2_twoDig mm hmlt]
  dsimp only [Option.bind]
  have hsec : renderSecOpt (some sv) ++ (renderFracOpt fr ++ (renderTzOpt tz ++ renderNl nl)) =
      ':' :: (twoDig sv ++ (renderFracOpt fr ++ (renderTzOpt tz ++ renderNl nl))) := by
    simp [renderSecOpt]
  rw [hsec, parseSec_true_render sv hsv]
  dsimp only [Option.bind]
  rw [parseFrac_render fr hf _ (tzNl_head tz nl)]
  dsimp only [Option.bind]
  rw [parseTz_render tz ht nl]
  dsimp only [Option.bind]
  rw [parseEnd_render nl]
  rfl

/-- A successful hyphen parse consumed a leading hyphen. -/
theorem parseHyphen_sound (cs rest : List Char) (h : parseHyphen cs = some rest) :
    cs = '-' :: rest := by
  cases cs with
  | nil => cases h
  | cons c t =>
    unfold parseHyphen at h
    dsimp only at h
    by_cases hc : c = '-'
    · rw [if_pos hc] at h
      injection h with h1
      rw [hc, h1]
    · rw [if_neg hc] at h; cases h

/-- A hyphen parses off a leading hyphen. -/
theorem parseHyphen_cons (rest : List Char) : parseHyphen ('-' :: rest) = some rest := by
  simp [parseHyphen]

/-- A successful date-regex match decomposes the subject into rendered
well-formed groups. -/
theorem isoDateParse_sound (cs : List Char) (p : DateParts)
    (h : isoDateParse cs = some p) :
    cs = renderDate p ∧ DateWf p := by
  unfold isoDateParse at h
  cases h1 : parse2 cs with
  | none => rw [h1] at h; cases h
  | some p1 =>
    rw [h1] at h
    dsimp only [Option.bind] at h
    obtain ⟨a, r1⟩ := p1
    cases h2 : parse2 r1 with
    | none => rw [h2] at h; cases h
    | some p2 =>
      rw [h2] at h
      dsimp only [Option.bind] at h
      obtain ⟨b, r2⟩ := p2
      cases h3 : parseHyphen r2 with
      | none => rw [h3] at h; cases h
      | some r3 =>
        rw [h3] at h
        dsimp only [Option.bind] at h
        cases h4 : parse2 r3 with
        | none => rw [h4] at h; cases h
        | some pm =>
          rw [h4] at h
          dsimp only [Option.bind] at h
          obtain ⟨m, r4⟩ := pm
          cases h5 : parseHyphen r4 with
          | none => rw [h5] at h; cases h
          | some r5 =>
            rw [h5] at h
            dsimp only [Option.bind] at h
            cases h6 : parse2 r5 with
            | none => rw [h6] at h; cases h
            | some pd =>
              rw [h6] at h
              dsimp only [Option.bind] at h
              obtain ⟨d, r6⟩ := pd
              cases h7 : parseEnd r6 with
              | none => rw [h7] at h; cases h
              | some nl =>
                rw [h7] at h
                dsimp only [Option.map] at h
                injection h with hp0
                obtain ⟨halt, hcs⟩ := parse2_sound cs a r1 h1
                obtain ⟨hblt, hr1⟩ := parse2_sound r1 b r2 h2
                have hr2 := parseHyphen_sound r2 r3 h3
                obtain ⟨hmlt, hr3⟩ := parse2_sound r3 m r4 h4
                have hr4 := parseHyphen_sound r4 r5 h5
                obtain ⟨hdlt, hr5⟩ := parse2_sound r5 d r6 h6
                have hr6 := parseEnd_sound r6 nl h7
                subst hp0
                constructor
                · rw [hcs, hr1, hr2, hr3, hr4, hr5, hr6]
                  have e1 : (100 * a + b) / 100 = a := by omega
                  have e2 : (100 * a + b) % 100 = b := by omega
                  simp [renderDate, fourDig, e1, e2, List.append_assoc]
                · exact ⟨by show 100 * a + b < 10000; omega, hmlt, hdlt⟩

/-- The rendering of well-formed date groups matches the date regex and
recovers the groups. -/
theorem isoDateParse_complete (p : DateParts) (hw : DateWf p) :
    isoDateParse (renderDate p) = some p := by
  obtain ⟨y, m, d, nl⟩ := p
  obtain ⟨hy, hm, hd⟩ := hw
  dsimp only at hy hm hd
  have h1 : y / 100 < 100 := by omega
  have h2 : y % 100 < 100 := by omega
  unfold renderDate isoDateParse fourDig
  dsimp only
  rw [List.append_assoc, parse2_twoDig _ h1]
  dsimp only [Option.bind]
  rw [parse2_twoDig _ h2]
  dsimp only [Option.bind]
  rw [parseHyphen_cons]
  dsimp only [Option.bind]
  rw [parse2_twoDig m hm]
  dsimp only [Option.bind]
  rw [parseHyphen_cons]
  dsimp only [Option.bind]
  rw [parse2_twoDig d hd]
  dsimp only [Option.bind]
  rw [parseEnd_render nl]
  have e : 100 * (y / 100) + y % 100 = y := by omega
  simp [e]

/-- The hour extraction `time.split(":")[0]` applied to a rendered time reads
back the two hour digits. -/
theorem takeWhile_ne_colon_twoDig (n : Nat) (h : n < 100) (rest : List Char) :
    (twoDig n ++ ':' :: rest).takeWhile (· ≠ ':') = twoDig n := by
  have h1 : n / 10 ≤ 9 := by omega
  have h2 : n % 10 ≤ 9 := by omega
  have hne1 := (isDig_ne_special _ (digitChar10_isDig _ h1)).1
  have hne2 := (isDig_ne_special _ (digitChar10_isDig _ h2)).1
  simp [twoDig, List.takeWhile_cons, hne1, hne2]

/-- Python's `int` on the two rendered hour digits gives back the hour. -/
theorem pyIntDec_twoDig (n : Nat) (h : n < 100) :
    pyIntDecOfChars (twoDig n) = some (n : Int) := by
  have h1 : n / 10 ≤ 9 := by omega
  have h2 : n % 10 ≤ 9 := by omega
  have hd1 := digitChar10_isDig _ h1
  have hd2 := digitChar10_isDig _ h2
  have hne := isDig_ne_special _ hd1
  have e : 10 * (n / 10) + n % 10 = n := by omega
  simp [twoDig, pyIntDecOfChars, hne.2.2.1, hne.2.2.2.1, hd1, hd2, natOfDigits,
    digVal_digitChar10 _ h1, digVal_digitChar10 _ h2, e]

/-- C4 amended: the time validator accepts a string exactly when it has the
shape `HH:MM:SS`, optionally extended by a fraction `.f+`, a suffix `Z` or
`±HH:MM` and the trailing newline Python's `$` tolerates, with hour at most
23 — in particular the seconds group is mandatory and `HH:MM` is rejected. -/
theorem C4_time_validator_accepts_exactly (s : String) :
    validate_iso_time (.vstr s) = true ↔
      ∃ p : TimeParts, ∃ sv, p.ss = some sv ∧ sv < 100 ∧ p.hh < 100 ∧ p.mm < 100 ∧
        FracWf p.frac ∧ (∀ t, p.tz = some t → TzWf t) ∧ p.hh ≤ 23 ∧
        s.data = renderTime p := by
  constructor
  · intro h
    unfold validate_iso_time at h
    dsimp only at h
    cases hp : isoTimeParse true s.data with
    | none => rw [hp] at h; simp at h
    | some p =>
      obtain ⟨hcs, hhlt, hmlt, ⟨sv, hss, hsv⟩, hf, ht⟩ := isoTimeParse_sound _ p hp
      have htk : s.data.takeWhile (· ≠ ':') = twoDig p.hh := by
        rw [hcs]
        exact takeWhile_ne_colon_twoDig p.hh hhlt _
      rw [hp] at h
      simp only [Option.isSome_some, if_true, htk, pyIntDec_twoDig p.hh hhlt] at h
      have hle : p.hh ≤ 23 := by
        by_contra hgt
        simp [decide_eq_true_eq] at h
        omega
      exact ⟨p, sv, hss, hsv, hhlt, hmlt, hf, ht, hle, hcs⟩
  · rintro ⟨p, sv, hss, hsv, hhlt, hmlt, hf, ht, hle, hcs⟩
    unfold validate_iso_time
    dsimp only
    rw [hcs, isoTimeParse_complete p sv hhlt hmlt hss hsv hf ht]
    have htk : (renderTime p).takeWhile (· ≠ ':') = twoDig p.hh :=
      takeWhile_ne_colon_twoDig p.hh hhlt _
    simp only [Option.isSome_some, if_true, htk, pyIntDec_twoDig p.hh hhlt]
    simp
    omega

/-- Witness for C4 amended: `"14:30:00"` is accepted. -/
theorem C4_time_validator_accepts_exactly_witness :
    validate_iso_time (.vstr "14:30:00") = true := by
  apply (C4_time_validator_accepts_exactly "14:30:00").mpr
  refine ⟨⟨14, 30, some 0, none, none, false⟩, 0, rfl, ?_, ?_, ?_, ?_, ?_, ?_, ?_⟩
  · decide
  · decide
  · decide
  · trivial
  · intro t ht; cases ht
  · decide
  · decide

/-- C5 amended: the date validator accepts a string exactly when it has the
digit shape `\d(4)-\d(2)-\d(2)`, optionally followed by the trailing newline
Python's `$` tolerates — a pure shape check with no calendar constraint. -/
theorem C5_date_validator_accepts_exactly (s : String) :
    validate_iso_date (.vstr s) = true ↔
      ∃ p : DateParts, DateWf p ∧ s.data = renderDate p := by
  constructor
  · intro h
    unfold validate_iso_date at h
    dsimp only at h
    cases hp : isoDateParse s.data with
    | none => rw [hp] at h; simp at h
    | some p =>
      obtain ⟨hcs, hw⟩ := isoDateParse_sound _ p hp
      exact ⟨p, hw, hcs⟩
  · rintro ⟨p, hw, hcs⟩
    unfold validate_iso_date
    dsimp only
    rw [hcs, isoDateParse_complete p hw]
    rfl

/-- Witness for C5 amended: `"2024-06-15"` is accepted. -/
theorem C5_date_validator_accepts_exactly_witness :
    validate_iso_date (.vstr "2024-06-15") = true :=
  (C5_date_validator_accepts_exactly "2024-06-15").mpr
    ⟨⟨2024, 6, 15, false⟩, ⟨by decide, by decide, by decide⟩, by decide⟩

/-- C2 amended: the rendered response body always carries all fourteen
response fields in declaration order, and every optional field that is absent
(`None`) on the response model appears in the rendering bound to `None` —
`model_dump()` is invoked without `exclude_none`, so nothing is omitted. -/
theorem C2_render_includes_null_fields (r : ServiceOrderResponse) :
    (modelDump r).map Prod.fst =
      ["id", "customer_id", "unit_id", "action_id", "created_at", "location_id",
       "service_date", "service_time", "service_duration", "service_status",
       "employee_id", "service_notes", "updated_at", "deleted_at"] ∧
    (r.location_id = none → dictGet (modelDump r) "location_id" = some .vnone) ∧
    (r.service_date = none → dictGet (modelDump r) "service_date" = some .vnone) ∧
    (r.service_time = none → dictGet (modelDump r) "service_time" = some .vnone) ∧
    (r.service_duration = none → dictGet (modelDump r) "service_duration" = some .vnone) ∧
    (r.service_status = none → dictGet (modelDump r) "service_status" = some .vnone) ∧
    (r.employee_id = none → dictGet (modelDump r) "employee_id" = some .vnone) ∧
    (r.service_notes = none → dictGet (modelDump r) "service_notes" = some .vnone) ∧
    (r.updated_at = none → dictGet (modelDump r) "updated_at" = some .vnone) ∧
    (r.deleted_at = none → dictGet (modelDump r) "deleted_at" = some .vnone) := by
  refine ⟨rfl, ?_, ?_, ?_, ?_, ?_, ?_, ?_, ?_, ?_⟩ <;>
    (intro h; simp [modelDump, dictGet, List.find?, h, optSVal])

/-- Witness for C2 amended at a concrete sparse response model. -/
theorem C2_render_includes_null_fields_witness :
    dictGet
      (modelDump
        ⟨"33333333333333333333333333333333", "cust-1", "11111111111111111111111111111111",
          "22222222222222222222222222222222", "2023-06-15T12:00:00", none, none, none,
          none, none, none, none, none, none⟩) "service_notes" = some .vnone :=
  (C2_render_includes_null_fields
    ⟨"33333333333333333333333333333333", "cust-1", "11111111111111111111111111111111",
      "22222222222222222222222222222222", "2023-06-15T12:00:00", none, none, none,
      none, none, none, none, none, none⟩).2.2.2.2.2.2.2.1 rfl

/-- Replacing `deleted_at` does not change an item's key attributes. -/
theorem itemMatchesKey_set_deleted (it : Item) (pk sk ts : String) :
    itemMatchesKey (dictSet it "deleted_at" (.vstr ts)) pk sk = itemMatchesKey it pk sk := by
  unfold itemMatchesKey
  rw [dictGet_dictSet_ne it _ _ _ (by decide), dictGet_dictSet_ne it _ _ _ (by decide)]

/-- Setting a key never empties a dict. -/
theorem dictSet_isEmpty_false (d : Dict) (k : String) (v : PyVal) :
    (dictSet d k v).isEmpty = false := by
  unfold dictSet
  by_cases h : hasKey d k
  · simp only [h, if_true]
    cases d with
    | nil => simp [hasKey, List.find?] at h
    | cons p rest => rfl
  · simp only [h, if_false]
    cases d <;> simp

/-- After marking an existing record deleted, the record is still found by
the same key lookup (soft delete does not remove nor hide it). -/
theorem getServiceOrder_after_mark (oid cid ts : String) :
    ∀ (tbl : Table) (it : Item), getServiceOrder tbl oid cid = some it →
      getServiceOrder (tableUpdateItem tbl oid cid [("deleted_at", .vstr ts)]).2 oid cid =
        some (dictSet it "deleted_at" (.vstr ts)) := by
  intro tbl
  induction tbl with
  | nil =>
    intro it h
    simp [getServiceOrder, tableGetItem, List.find?] at h
  | cons old rest ih =>
    intro it h
    by_cases hm : itemMatchesKey old oid cid
    · have hget : tableGetItem (old :: rest) oid cid = some old := by
        simp [tableGetItem, List.find?_cons_of_pos, hm]
      rw [getServiceOrder, hget] at h
      dsimp only at h
      by_cases htr : truthy (.vdict old) = true
      · rw [if_pos htr] at h
        have heq : old = it := by injection h
        subst heq
        have hstep : (tableUpdateItem (old :: rest) oid cid
            [("deleted_at", .vstr ts)]).2 =
            dictSet old "deleted_at" (.vstr ts) :: rest := by
          simp [tableUpdateItem, hm]
        rw [hstep]
        have hm2 : itemMatchesKey (dictSet old "deleted_at" (.vstr ts)) oid cid = true := by
          rw [itemMatchesKey_set_deleted]; exact hm
        have hget2 : tableGetItem (dictSet old "deleted_at" (.vstr ts) :: rest) oid cid =
            some (dictSet old "deleted_at" (.vstr ts)) := by
          simp [tableGetItem, List.find?_cons_of_pos, hm2]
        rw [getServiceOrder, hget2]
        have : truthy (.vdict (dictSet old "deleted_at" (.vstr ts))) = true := by
          simp [truthy, dictSet_isEmpty_false]
        dsimp only
        rw [if_pos this]
      · rw [if_neg htr] at h; cases h
    · have hget : tableGetItem (old :: rest) oid cid = tableGetItem rest oid cid := by
        simp [tableGetItem, List.find?_cons_of_neg, hm]
      rw [getServiceOrder, hget] at h
      have hrec : getServiceOrder rest oid cid = some it := by
        rw [getServiceOrder]; exact h
      have hstep : (tableUpdateItem (old :: rest) oid cid [("deleted_at", .vstr ts)]).2 =
          old :: (tableUpdateItem rest oid cid [("deleted_at", .vstr ts)]).2 := by
        simp [tableUpdateItem, hm]
      rw [hstep]
      have hget2 : tableGetItem
          (old :: (tableUpdateItem rest oid cid [("deleted_at", .vstr ts)]).2) oid cid =
          tableGetItem (tableUpdateItem rest oid cid [("deleted_at", .vstr ts)]).2 oid cid := by
        simp [tableGetItem, List.find?_cons_of_neg, hm]
      rw [getServiceOrder, hget2]
      have := ih it hrec
      rw [getServiceOrder] at this
      exact this

/-- C7 amended: deleting an existing record answers 204 and leaves the
record visible, so the same delete issued again also answers 204 — soft
delete is repeatable, and 404 arises only for a record that is absent. -/
theorem C7_delete_existing_twice_both_204 (tbl : Table) (it : Item) (f1 f2 t1 t2 : String)
    (h : getServiceOrder tbl uuidC "cust-1" = some it) :
    ∃ tbl1 tbl2,
      lambdaHandler deleteEvent tbl f1 t1 = .ok (createResponse 204 none, tbl1) ∧
      lambdaHandler deleteEvent tbl1 f2 t2 = .ok (createResponse 204 none, tbl2) := by
  have hv : validate_delete_request deleteEvent =
      .ok ⟨true, some uuidC, some "cust-1", none⟩ := by rfl
  have h2 := getServiceOrder_after_mark uuidC "cust-1" t1 tbl it h
  refine ⟨(tableUpdateItem tbl uuidC "cust-1" [("deleted_at", .vstr t1)]).2,
    (tableUpdateItem (tableUpdateItem tbl uuidC "cust-1" [("deleted_at", .vstr t1)]).2
      uuidC "cust-1" [("deleted_at", .vstr t2)]).2, ?_, ?_⟩
  · have hme : deleteEvent.httpMethod = some "DELETE" := rfl
    simp [lambdaHandler, hme, handleDeleteRequest, hv, markServiceOrderDeleted, h]
  · have hme : deleteEvent.httpMethod = some "DELETE" := rfl
    simp [lambdaHandler, hme, handleDeleteRequest, hv, markServiceOrderDeleted, h2]

/-- Witness for C7 amended: the concrete sparse record deleted twice. -/
theorem C7_delete_existing_twice_both_204_witness :
    ∃ tbl1 tbl2,
      lambdaHandler deleteEvent sparseTable "f" "T1" = .ok (createResponse 204 none, tbl1) ∧
      lambdaHandler deleteEvent tbl1 "f" "T2" = .ok (createResponse 204 none, tbl2) :=
  C7_delete_existing_twice_both_204 sparseTable sparseItem "f" "f" "T1" "T2" rfl

end ServiceOrder
